import Mathlib

/-!
Verification development for the tiered question-router / SQL-client /
semantic-cache core of the kdt-ai-landing-page repository.

The Python modules neo_mcp/db.py, neo_mcp/router.py, neo_mcp/agent.py and
rag/semantic_cache.py are shallowly embedded below.  Strings are modelled as
lists of characters (Python str), SQL results as lists of rows, outbound HTTP
as explicit oracles, and the process-wide caches as explicit state that is
threaded through the functions.
-/

namespace S2P

/-! ## Python string primitives (over List Char) -/

/-- Python strings, modelled as lists of characters. -/
abbrev Str := List Char

/-- Lift a Lean string literal into the model. -/
def lit (s : String) : Str := s.data

/-- Whitespace test used by Python str.strip / str.lower contexts. -/
def isWs (c : Char) : Bool :=
  c == ' ' || c == '\t' || c == '\n' || c == '\r' || c == '\x0b' || c == '\x0c'

/-- ASCII lower-casing of one character (Python str.lower on ASCII input). -/
def lowerChar (c : Char) : Char :=
  if 65 ≤ c.toNat ∧ c.toNat ≤ 90 then Char.ofNat (c.toNat + 32) else c

/-- ASCII upper-casing of one character (Python str.upper on ASCII input). -/
def upperChar (c : Char) : Char :=
  if 97 ≤ c.toNat ∧ c.toNat ≤ 122 then Char.ofNat (c.toNat - 32) else c

/-- Python str.lower (ASCII). -/
def lowerStr (s : Str) : Str := s.map lowerChar

/-- Python str.upper (ASCII). -/
def upperStr (s : Str) : Str := s.map upperChar

/-- Python str.strip(): remove leading and trailing whitespace. -/
def stripStr (s : Str) : Str :=
  ((s.dropWhile isWs).reverse.dropWhile isWs).reverse

/-- Python str.rstrip(';'): remove trailing semicolon characters. -/
def rstripSemi (s : Str) : Str :=
  (s.reverse.dropWhile (fun c => c == ';')).reverse

/-- Does s start with pat? -/
def startsWithL (s pat : Str) : Bool :=
  match s, pat with
  | _, [] => true
  | [], _ :: _ => false
  | c :: s', p :: ps => c == p && startsWithL s' ps

/-- Python substring containment: pat in s. -/
def containsL (s pat : Str) : Bool :=
  match s with
  | [] => startsWithL [] pat
  | _ :: rest => startsWithL s pat || containsL rest pat

/-- Worker for normWs: pend records whether a whitespace run is pending a
separator before the next non-whitespace character. -/
def normWsAux (pend : Bool) : Str → Str
  | [] => []
  | c :: rest =>
    if isWs c then normWsAux true rest
    else if pend then ' ' :: c :: normWsAux false rest
    else c :: normWsAux false rest

/-- Collapse every maximal run of whitespace to a single space and strip the
ends; used to state properties of multi-line SQL template strings. -/
def normWs (s : Str) : Str := normWsAux false (s.dropWhile isWs)

/-! ## JSON-ish values and SQL result rows -/

/-- A value in a result row (the JSON scalar types the services return). -/
inductive Value where
  | null
  | bool (b : Bool)
  | int (n : Int)
  | str (s : Str)
deriving DecidableEq, Repr

/-- A result row: an ordered mapping column-name to value (Python dict). -/
abbrev Row := List (Str × Value)

/-- Python dict .get: first binding of the key, if any. -/
def rowGet (r : Row) (k : Str) : Option Value :=
  match r.find? (fun p => p.fst == k) with
  | some p => some p.snd
  | none => none

/-- Python truthiness of an optional value (missing key counts as falsy). -/
def pyTruthy : Option Value → Bool
  | none => false
  | some .null => false
  | some (.bool b) => b
  | some (.int n) => n != 0
  | some (.str s) => !s.isEmpty

/-- Decimal digits of a natural number. -/
def natStr (n : Nat) : Str := Nat.toDigits 10 n

/-- Python str() of an integer. -/
def intStr (i : Int) : Str :=
  if i < 0 then '-' :: natStr i.natAbs else natStr i.natAbs

/-- Python str() of a value (as used in f-string interpolation). -/
def valueStr : Value → Str
  | .null => lit "None"
  | .bool true => lit "True"
  | .bool false => lit "False"
  | .int n => intStr n
  | .str s => s

/-- Group a reversed digit list into threes (helper for comma formatting). -/
def group3Rev : Str → Str
  | [] => []
  | [a] => [a]
  | [a, b] => [a, b]
  | [a, b, c] => [a, b, c]
  | a :: b :: c :: d :: rest => a :: b :: c :: ',' :: group3Rev (d :: rest)

/-- Python format spec f-string with comma grouping on a natural number. -/
def commaNat (n : Nat) : Str := (group3Rev (natStr n).reverse).reverse

/-- Python f-string with comma grouping on an integer. -/
def commaInt (i : Int) : Str :=
  if i < 0 then '-' :: commaNat i.natAbs else commaNat i.natAbs

/-- A query result as returned by a source's /api/sql endpoint. -/
structure QueryResult where
  columns : List Str
  rows : List Row
  row_count : Nat
deriving DecidableEq, Repr

/-! ## Regular expressions

A small backtracking engine implementing Python re.search semantics for the
constructs appearing in the router's patterns: literals, classes, alternation
(left preference), greedy and lazy repetition, capturing groups (numbered; the
named groups of the source are referred to by their group number), the dot,
and the end-of-string anchor. -/

inductive RE where
  | eps
  | ch (c : Char)
  | dot
  | eos
  | cls (neg : Bool) (ranges : List (Char × Char))
  | seq (a b : RE)
  | alt (a b : RE)
  | star (greedy : Bool) (r : RE)
  | grp (idx : Nat) (r : RE)
deriving Repr

/-- Character class membership. -/
def inRanges (c : Char) (rs : List (Char × Char)) : Bool :=
  rs.any (fun p => p.fst.toNat ≤ c.toNat && c.toNat ≤ p.snd.toNat)

/-- Captured groups: group number to captured text, newest first. -/
abbrev Caps := List (Nat × Str)

/-- Repetition: all ways to continue after zero or more matches of the body,
in backtracking preference order (greedy: more first; lazy: fewer first).
An iteration must consume at least one character, as in Python, where a
repeated empty match ends the repetition. -/
def mstar (m : Str → Caps → List (Str × Caps)) (g : Bool) :
    Nat → Str → Caps → List (Str × Caps)
  | 0, s, cps => [(s, cps)]
  | fuel + 1, s, cps =>
    let more := (m s cps).flatMap fun r =>
      if r.fst.length < s.length then mstar m g fuel r.fst r.snd else []
    if g then more ++ [(s, cps)] else (s, cps) :: more

/-- All matches of a regex against the front of s: pairs of (remaining
suffix, captures), in backtracking preference order. -/
def mtch : RE → Str → Caps → List (Str × Caps)
  | .eps, s, cps => [(s, cps)]
  | .ch c, s, cps =>
    match s with
    | [] => []
    | x :: rest => if x == c then [(rest, cps)] else []
  | .dot, s, cps =>
    match s with
    | [] => []
    | x :: rest => if x == '\n' then [] else [(rest, cps)]
  | .eos, s, cps => if s.isEmpty then [(s, cps)] else []
  | .cls neg rs, s, cps =>
    match s with
    | [] => []
    | x :: rest => if inRanges x rs != neg then [(rest, cps)] else []
  | .seq a b, s, cps => (mtch a s cps).flatMap fun r => mtch b r.fst r.snd
  | .alt a b, s, cps => mtch a s cps ++ mtch b s cps
  | .star g r, s, cps => mstar (mtch r) g (s.length + 1) s cps
  | .grp i r, s, cps =>
    (mtch r s cps).map fun r' =>
      (r'.fst, (i, s.take (s.length - r'.fst.length)) :: r'.snd)

/-- Python re.search: try each start position left to right, and return the
captures of the preferred match at the first position that matches. -/
def searchCaps (r : RE) (s : Str) : Option Caps :=
  match mtch r s [] with
  | res :: _ => some res.snd
  | [] =>
    match s with
    | [] => none
    | _ :: rest => searchCaps r rest

/-- Boolean re.search. -/
def reSearch (r : RE) (s : Str) : Bool := (searchCaps r s).isSome

/-- m.group(i): the captured text of group i, None when the group did not
participate in the match. -/
def capStr (cps : Caps) (i : Nat) : Option Str :=
  (cps.find? (fun p => p.fst == i)).map (fun p => p.snd)

/-! Constructors mirroring the regex notations used in the source. -/

/-- Concatenation of a list of regexes. -/
def catR : List RE → RE
  | [] => .eps
  | [r] => r
  | r :: rest => .seq r (catR rest)

/-- A literal string regex. -/
def litR (s : String) : RE := catR (s.data.map RE.ch)

/-- Alternation with Python left-to-right preference. -/
def altsR : List RE → RE
  | [] => .cls false []
  | [r] => r
  | r :: rest => .alt r (altsR rest)

/-- Greedy X? -/
def optG (r : RE) : RE := .alt r .eps

/-- Greedy X+ -/
def plusG (r : RE) : RE := .seq r (.star true r)

/-- Lazy X+? -/
def plusL (r : RE) : RE := .seq r (.star false r)

/-- Greedy .* -/
def dotStar : RE := .star true .dot

/-- The class \d. -/
def digitC : RE := .cls false [('0', '9')]

/-- The class \w. -/
def wordC : RE := .cls false [('a', 'z'), ('A', 'Z'), ('0', '9'), ('_', '_')]

/-- The class \s. -/
def spaceC : RE :=
  .cls false [(' ', ' '), ('\t', '\t'), ('\n', '\n'), ('\r', '\r'),
    ('\x0b', '\x0b'), ('\x0c', '\x0c')]

/-- The class [a-zA-Z]. -/
def alphaC : RE := .cls false [('a', 'z'), ('A', 'Z')]

/-- The class [a-zA-Z\s]. -/
def alphaSpC : RE :=
  .cls false [('a', 'z'), ('A', 'Z'), (' ', ' '), ('\t', '\t'), ('\n', '\n'),
    ('\r', '\r'), ('\x0b', '\x0b'), ('\x0c', '\x0c')]

/-! ## neo_mcp/db.py : the remote SQL client

execute_query is embedded with an oracle for the HTTP attempts and an
explicit transcript of the outbound POSTs to /api/sql, so that properties of
"the transmitted SQL" can be stated.  The process-wide query cache is
explicit state.  The md5 hash of the cache key is a parameter of the
embedding (its internals are a library routine). -/

/-- The keys of SERVICE_URLS (db.py lines 15-22). -/
def SERVICE_NAMES : List Str :=
  [lit "researchers", lit "patents", lit "grants", lit "policies",
   lit "portfolio", lit "market_data"]

/-- One outbound POST of {query, secret} to a source's /api/sql endpoint. -/
structure SqlCall where
  db : Str
  query : Str
  timeout : Nat
deriving DecidableEq, Repr

/-- Outcome of one HTTP attempt as discriminated by execute_query's except
arms: success, httpx.TimeoutException, httpx.HTTPStatusError (with the
error detail computed from the response body), or any other exception. -/
inductive HttpOut where
  | success (r : QueryResult)
  | timeout
  | statusError (errorDetail : Str)
  | otherError (msg : Str)
deriving Repr

/-- The LIMIT-appending transform of execute_query (db.py lines 83-87): this
is the SQL string actually transmitted over HTTP. -/
def transmittedQuery (query : Str) (lim : Nat) : Str :=
  let qUpper := upperStr (stripStr query)
  if containsL qUpper (lit "LIMIT") then query
  else rstripSemi query ++ lit " LIMIT " ++ natStr (min lim 500)

/-- An entry of the process-wide _query_cache. -/
structure QCEntry where
  key : Str
  result : QueryResult
  timestamp : ℚ
deriving DecidableEq

/-- The _query_cache dict, in insertion order, keys unique. -/
abbrev QCache := List QCEntry

/-- _cache_key (db.py 32-35): md5 of "db:stripped-lowered-query"; the md5
digest function is the parameter h. -/
def cacheKeyQ (h : Str → Str) (dbName query : Str) : Str :=
  h (dbName ++ lit ":" ++ lowerStr (stripStr query))

/-- _get_cached (db.py 38-46): non-expired hit, expired entries deleted. -/
def getCachedQ (c : QCache) (now : ℚ) (key : Str) :
    Option QueryResult × QCache :=
  match c.find? (fun e => e.key == key) with
  | none => (none, c)
  | some e =>
    if now - e.timestamp < 300 then (some e.result, c)
    else (none, c.eraseP (fun e' => e'.key == key))

/-- The eviction step of _set_cached (db.py 51-56): when the dict holds more
than 100 entries, delete the 50 entries whose keys come first when the keys
are sorted by timestamp. -/
def evictQC (c : QCache) : QCache :=
  if c.length > 100 then
    ((c.insertionSort (fun a b => a.timestamp ≤ b.timestamp)).take 50).foldl
      (fun acc v => acc.eraseP (fun e => e.key == v.key)) c
  else c

/-- The dict assignment of _set_cached (db.py 58): replace in place when the
key exists, else append. -/
def insertQC (c1 : QCache) (now : ℚ) (key : Str) (r : QueryResult) : QCache :=
  if c1.any (fun e => e.key == key) then
    c1.map (fun e => if e.key == key then ⟨key, r, now⟩ else e)
  else c1 ++ [⟨key, r, now⟩]

/-- _set_cached (db.py 49-58). -/
def setCachedQ (c : QCache) (now : ℚ) (key : Str) (r : QueryResult) :
    QCache :=
  insertQC (evictQC c) now key r

/-- The message of the ValueError raised on an unknown db_name. -/
def unknownDbMsg (dbName : Str) : Str :=
  lit "Unknown database: " ++ dbName ++
    lit ". Valid: ['researchers', 'patents', 'grants', 'policies', 'portfolio', 'market_data']"

/-- The message of the ValueError raised after two timed-out attempts. -/
def timedOutMsg : Str :=
  lit "Query timed out after 2 attempts. Try a simpler query with more restrictive WHERE clauses."

/-- Result of one execute_query call: the returned value or raised error,
the transcript of outbound /api/sql POSTs, and the updated query cache. -/
structure ExecOut where
  result : Except Str QueryResult
  calls : List SqlCall
  cache : QCache

/-- The retry loop of execute_query (db.py 96-129), entered on a cache miss:
at most two attempts, 90 s then 120 s, the retry only after a timeout.  att
gives the outcome of each attempt. -/
def httpAttempts (att : Nat → HttpOut) (dbName q : Str) (useCache : Bool)
    (c' : QCache) (now : ℚ) (key : Str) : ExecOut :=
  let call0 : SqlCall := ⟨dbName, q, 90⟩
  match att 0 with
  | .success r =>
    ⟨.ok r, [call0], if useCache then setCachedQ c' now key r else c'⟩
  | .statusError d => ⟨.error (lit "Query error: " ++ d), [call0], c'⟩
  | .otherError m =>
    ⟨.error (lit "Failed to query " ++ dbName ++ lit ": " ++ m), [call0], c'⟩
  | .timeout =>
    let call1 : SqlCall := ⟨dbName, q, 120⟩
    match att 1 with
    | .success r =>
      ⟨.ok r, [call0, call1],
        if useCache then setCachedQ c' now key r else c'⟩
    | .statusError d =>
      ⟨.error (lit "Query error: " ++ d), [call0, call1], c'⟩
    | .otherError m =>
      ⟨.error (lit "Failed to query " ++ dbName ++ lit ": " ++ m),
        [call0, call1], c'⟩
    | .timeout => ⟨.error timedOutMsg, [call0, call1], c'⟩

/-- Continuation of execute_query after the cache lookup (db.py 89-129):
return the cached result when the lookup hit, otherwise run the retry loop. -/
def execAfterLook (att : Nat → HttpOut) (dbName q : Str) (useCache : Bool)
    (now : ℚ) (key : Str) : Option QueryResult × QCache → ExecOut
  | (some r, c') => ⟨.ok r, [], c'⟩
  | (none, c') => httpAttempts att dbName q useCache c' now key

/-- execute_query (db.py 61-129).  h is the md5 parameter, att gives the
outcome of HTTP attempt 0 and (if reached) attempt 1. -/
def executeQuery (h : Str → Str) (att : Nat → HttpOut) (cache : QCache)
    (now : ℚ) (dbName query : Str) (lim : Nat := 100)
    (useCache : Bool := true) : ExecOut :=
  if ¬ (SERVICE_NAMES.contains dbName) then
    ⟨.error (unknownDbMsg dbName), [], cache⟩
  else
    let q := transmittedQuery query lim
    let key := cacheKeyQ h dbName q
    execAfterLook att dbName q useCache now key
      (if useCache then getCachedQ cache now key else (none, cache))

/-! ## neo_mcp/router.py : keyword routing, intent detection, entities -/

/-- DB_KEYWORDS (router.py 31-64). -/
def DB_KEYWORDS : List (Str × List Str) :=
  [(lit "researchers",
    [lit "researcher", lit "researchers", lit "scientist", lit "scientists",
     lit "professor", lit "h-index", lit "h_index", lit "hindex",
     lit "citations", lit "publications", lit "slope", lit "rising star",
     lit "hidden gem", lit "talent", lit "academic", lit "author", lit "kol"]),
   (lit "patents",
    [lit "patent", lit "patents", lit "invention", lit "inventions",
     lit "assignee", lit "claims", lit "intellectual property", lit "ip",
     lit "patent number", lit "cpc"]),
   (lit "grants",
    [lit "grant", lit "grants", lit "funding", lit "nih", lit "nsf",
     lit "r01", lit "award", lit "pi", lit "principal investigator",
     lit "fiscal year", lit "institute"]),
   (lit "sec_sentinel",
    [lit "sec", lit "filing", lit "filings", lit "8-k", lit "10-k",
     lit "10-q", lit "s-1", lit "s-3", lit "form 4", lit "insider",
     lit "insider trading", lit "insider sell", lit "insider buy",
     lit "runway", lit "cash runway", lit "burn rate", lit "distress",
     lit "shelf registration", lit "ipo", lit "proxy", lit "13d",
     lit "13g", lit "activist"]),
   (lit "market_data",
    [lit "trial", lit "trials", lit "clinical trial", lit "clinical trials",
     lit "phase", lit "recruiting", lit "sponsor", lit "fda", lit "drug",
     lit "intervention", lit "nct", lit "enrollment", lit "completed",
     lit "terminated", lit "suspended"]),
   (lit "portfolio",
    [lit "portfolio", lit "company", lit "companies", lit "startup",
     lit "modality", lit "indication", lit "competitive advantage",
     lit "investment"]),
   (lit "policies",
    [lit "bill", lit "bills", lit "policy", lit "policies",
     lit "legislation", lit "congress", lit "senate", lit "house",
     lit "law", lit "regulation"])]

/-- detect_databases (router.py 67-79). -/
def detectDatabases (question : Str) : List Str :=
  let ql := lowerStr question
  DB_KEYWORDS.foldl
    (fun acc p =>
      if p.snd.any (fun k => containsL ql k) && !(acc.contains p.fst) then
        acc ++ [p.fst]
      else acc) []

/-- INTENT_PATTERNS (router.py 85-119), each Python regex transcribed. -/
def INTENT_PATTERNS : List (Str × List RE) :=
  [(lit "count",
    [litR "how many", litR "count of", litR "number of",
     catR [litR "total ", altsR [litR "number", litR "count"]]]),
   (lit "list",
    [catR [litR "list ", optG (altsR [litR "all", litR "the"])],
     catR [litR "show ", optG (litR "me "), optG (altsR [litR "all", litR "the"])],
     litR "what are", litR "who are",
     catR [litR "find ", optG (altsR [litR "all", litR "the"])],
     catR [litR "get ", optG (altsR [litR "all", litR "the"])]]),
   (lit "top_n",
    [catR [litR "top ", plusG digitC], catR [litR "best ", plusG digitC],
     catR [litR "highest ", plusG digitC], catR [litR "largest ", plusG digitC],
     catR [litR "most ", plusG wordC], litR "biggest"]),
   (lit "compare",
    [litR "compare", litR "versus",
     catR [litR " vs", optG (.ch '.'), .cls false [(' ', ' '), ('$', '$')]],
     litR "difference between",
     catR [litR "how does ", plusG .dot, litR " compare"]]),
   (lit "lookup",
    [litR "what is", litR "tell me about", litR "info on",
     catR [litR "details ", altsR [litR "on", litR "about", litR "for"]],
     litR "who is", litR "describe"]),
   (lit "aggregate",
    [litR "total", litR "sum of", litR "average", litR "mean", litR "median",
     catR [litR "by ", altsR [litR "status", litR "phase", litR "year",
       litR "sponsor", litR "category", litR "field"]]]),
   (lit "filter",
    [litR "where", litR "with", litR "that have", litR "greater than",
     litR "less than", litR "more than",
     catR [litR "over ", optG (.ch '$'), plusG digitC],
     catR [litR "under ", optG (.ch '$'), plusG digitC], litR "between"]),
   (lit "cross_db",
    [catR [litR "and ", altsR [litR "also", litR "their", litR "any"]],
     catR [litR "who ", plusG .dot, litR " and ", plusG .dot, litR " have"],
     catR [litR "researchers ", plusG .dot, litR " patents"],
     catR [litR "researchers ", plusG .dot, litR " trials"],
     catR [litR "companies ", plusG .dot, litR " patents"],
     catR [litR "grants ", plusG .dot, litR " trials"],
     litR "for each", litR "across",
     catR [litR "both ", plusG .dot, litR " and"]])]

/-- detect_intent (router.py 122-134). -/
def detectIntent (question : Str) : List Str :=
  let ql := lowerStr question
  let out := INTENT_PATTERNS.foldl
    (fun acc p =>
      if p.snd.any (fun re => reSearch re ql) && !(acc.contains p.fst) then
        acc ++ [p.fst]
      else acc) []
  if out.isEmpty then [lit "general"] else out

/-- ENTITY_URLS (router.py 189-196). -/
def ENTITY_URLS : List (Str × Str) :=
  [(lit "researchers", lit "https://kdttalentscout.up.railway.app/researcher"),
   (lit "patents", lit "https://patentwarrior.up.railway.app/patent"),
   (lit "grants", lit "https://grants-tracker-production.up.railway.app/grant"),
   (lit "policies", lit "https://policywatch.up.railway.app/bill"),
   (lit "portfolio", lit "https://web-production-a9d068.up.railway.app/company"),
   (lit "market_data", lit "https://clinicaltrials.gov/study")]

/-- ENTITY_URLS.get(db, ""). -/
def entityBaseUrl (dbName : Str) : Str :=
  match ENTITY_URLS.find? (fun p => p.fst == dbName) with
  | some p => p.snd
  | none => []

/-- A linkable entity record {type, id, name, url, meta}. -/
structure Entity where
  ty : Str
  id : Value
  name : Str
  url : Str
  meta : Str
deriving DecidableEq, Repr

/-- Python a or b where a, b are looked-up values. -/
def pyOrOpt (a b : Option Value) : Option Value :=
  if pyTruthy a then a else b

/-- row.get(k, default) interpolated into an f-string. -/
def getStrD (r : Row) (k : Str) (dflt : Str) : Str :=
  match rowGet r k with
  | some v => valueStr v
  | none => dflt

/-- Python (row.get(k) or "?")[:n] as used by the tier-2 table formatter. -/
def getOrQ (r : Row) (k : Str) (n : Nat) : Str :=
  let v := rowGet r k
  if pyTruthy v then ((v.map valueStr).getD []).take n else lit "?"

/-- title[:60] + "..." if len(title) > 60 else title. -/
def ellipsise (s : Str) (n : Nat) : Str :=
  if s.length > n then s.take n ++ lit "..." else s

/-- extract_entities_from_rows (router.py 199-275): map the first 10 rows of
a result to entity records, per source. -/
def extractEntitiesFromRows (dbName : Str) (rows : List Row) : List Entity :=
  let base := entityBaseUrl dbName
  (rows.take 10).filterMap fun row =>
    if dbName == lit "researchers" then
      if pyTruthy (rowGet row (lit "id")) && pyTruthy (rowGet row (lit "name")) then
        some
          { ty := lit "researcher"
            id := (rowGet row (lit "id")).getD .null
            name := getStrD row (lit "name") []
            url := base ++ lit "/" ++ valueStr ((rowGet row (lit "id")).getD .null)
            meta := lit "h-index: " ++ getStrD row (lit "h_index") (lit "?") }
      else none
    else if dbName == lit "patents" then
      let pid := pyOrOpt (rowGet row (lit "id")) (rowGet row (lit "patent_id"))
      if pyTruthy pid then
        some
          { ty := lit "patent"
            id := pid.getD .null
            name := ellipsise (getStrD row (lit "title") (lit "Untitled Patent")) 60
            url := base ++ lit "/" ++ valueStr (pid.getD .null)
            meta := getStrD row (lit "patent_number") [] }
      else none
    else if dbName == lit "grants" then
      let gid := pyOrOpt (rowGet row (lit "id")) (rowGet row (lit "grant_id"))
      if pyTruthy gid then
        some
          { ty := lit "grant"
            id := gid.getD .null
            name := ellipsise (getStrD row (lit "title") (lit "Untitled Grant")) 60
            url := base ++ lit "/" ++ valueStr (gid.getD .null)
            meta :=
              match rowGet row (lit "total_cost") with
              | some (.int n) =>
                if n != 0 then lit "$" ++ commaInt n else []
              | _ => [] }
      else none
    else if dbName == lit "policies" then
      let bid := pyOrOpt (rowGet row (lit "id")) (rowGet row (lit "bill_id"))
      if pyTruthy bid then
        some
          { ty := lit "policy"
            id := bid.getD .null
            name := ellipsise (getStrD row (lit "title") (lit "Untitled Bill")) 60
            url := base ++ lit "/" ++ valueStr (bid.getD .null)
            meta := getStrD row (lit "status") [] }
      else none
    else if dbName == lit "portfolio" then
      let cid := pyOrOpt (rowGet row (lit "id")) (rowGet row (lit "company_id"))
      if pyTruthy cid then
        some
          { ty := lit "company"
            id := cid.getD .null
            name := getStrD row (lit "name") (lit "Unknown")
            url := base ++ lit "/" ++ valueStr (cid.getD .null)
            meta := getStrD row (lit "modality") [] }
      else none
    else if dbName == lit "market_data" then
      let nid := rowGet row (lit "nct_id")
      if pyTruthy nid then
        some
          { ty := lit "clinical_trial"
            id := nid.getD .null
            name := ellipsise (getStrD row (lit "title") (lit "Untitled Trial")) 50
            url := base ++ lit "/" ++ valueStr (nid.getD .null)
            meta := getStrD row (lit "status") [] ++ lit " | " ++
              getStrD row (lit "phase") [] }
      else none
    else none

/-- Python "sep".join(xs). -/
def pyJoin (sep : Str) : List Str → Str
  | [] => []
  | [x] => x
  | x :: rest => x ++ sep ++ pyJoin sep rest

/-- Python str.title() (uppercase a letter after a non-letter). -/
def pyTitleGo (startWord : Bool) : Str → Str
  | [] => []
  | c :: rest =>
    if (97 ≤ c.toNat ∧ c.toNat ≤ 122) ∨ (65 ≤ c.toNat ∧ c.toNat ≤ 90) then
      (if startWord then upperChar c else lowerChar c) :: pyTitleGo false rest
    else c :: pyTitleGo true rest

/-- Python str.title(). -/
def pyTitle (s : Str) : Str := pyTitleGo true s

/-- format_aggregation_response (router.py 640-667). -/
def formatAggregationResponse (rows : List Row) (description : Str) : Str :=
  match rows with
  | [] => lit "No data found."
  | row0 :: _ =>
    let headers := row0.map (fun p => p.fst)
    let headerLine := lit "| " ++
      pyJoin (lit " | ")
        (headers.map (fun h => pyTitle (h.map (fun c => if c == '_' then ' ' else c)))) ++
      lit " |"
    let separator := lit "|" ++
      pyJoin (lit "|") (headers.map (fun h => List.replicate (h.length + 2) '-')) ++
      lit "|"
    let bodyLines := (rows.take 15).map fun row =>
      let values := headers.map fun h =>
        let v := rowGet row h
        let formatted :=
          match v with
          | some (.int n) =>
            if h == lit "total_funding" || h == lit "total_cost" then
              lit "$" ++ commaInt n
            else commaInt n
          | some (.bool b) =>
            let n : Int := if b then 1 else 0
            if h == lit "total_funding" || h == lit "total_cost" then
              lit "$" ++ commaInt n
            else commaInt n
          | some w => valueStr w
          | none => []
        formatted.take 30
      lit "| " ++ pyJoin (lit " | ") values ++ lit " |"
    pyJoin (lit "\n")
      ([lit "**" ++ description ++ lit "**", []] ++ [headerLine, separator] ++ bodyLines)

/-- format_tier2_response (router.py 670-724). The final json.dumps branch is
unreachable from TIER2_PATTERNS (their dbs are all matched above) and is
modelled by a fixed marker string. -/
def formatTier2Response (rows : List Row) (dbName : Str) : Str :=
  match rows with
  | [] => lit "No results found."
  | row0 :: _ =>
    if dbName == lit "researchers" then
      let header := [lit "| Name | H-Index | Slope | Category |",
                     lit "|------|---------|-------|----------|"]
      let body := (rows.take 10).map fun r =>
        lit "| " ++ (getStrD r (lit "name") (lit "?")).take 30 ++
        lit " | " ++ getStrD r (lit "h_index") (lit "?") ++
        lit " | " ++ getStrD r (lit "slope") (lit "?") ++
        lit " | " ++ getOrQ r (lit "primary_category") 20 ++ lit " |"
      pyJoin (lit "\n") (header ++ body)
    else if dbName == lit "patents" then
      let header := [lit "| Title | Patent # | Filing Date |",
                     lit "|-------|----------|-------------|"]
      let body := (rows.take 10).map fun r =>
        lit "| " ++ getOrQ r (lit "title") 40 ++
        lit " | " ++ getStrD r (lit "patent_number") (lit "?") ++
        lit " | " ++ getStrD r (lit "filing_date") (lit "?") ++ lit " |"
      pyJoin (lit "\n") (header ++ body)
    else if dbName == lit "grants" then
      let header := [lit "| Title | Amount | Institute |",
                     lit "|-------|--------|-----------|"]
      let body := (rows.take 10).map fun r =>
        let amount :=
          match rowGet r (lit "total_cost") with
          | some (.int n) => if n != 0 then lit "$" ++ commaInt n else lit "?"
          | _ => lit "?"
        lit "| " ++ getOrQ r (lit "title") 40 ++
        lit " | " ++ amount ++
        lit " | " ++ getOrQ r (lit "institute") 20 ++ lit " |"
      pyJoin (lit "\n") (header ++ body)
    else if dbName == lit "portfolio" then
      lit "**" ++ getStrD row0 (lit "name") (lit "?") ++ lit "**\n" ++
      lit "- Modality: " ++ getStrD row0 (lit "modality") (lit "?") ++ lit "\n" ++
      lit "- Advantage: " ++ getStrD row0 (lit "competitive_advantage") (lit "?") ++ lit "\n" ++
      lit "- Indications: " ++ getStrD row0 (lit "indications") (lit "?")
    else if dbName == lit "market_data" then
      let header := [lit "| Title | Status | Phase | Sponsor |",
                     lit "|-------|--------|-------|---------|"]
      let body := (rows.take 10).map fun r =>
        lit "| " ++ getOrQ r (lit "title") 35 ++
        lit " | " ++ getOrQ r (lit "status") 12 ++
        lit " | " ++ getOrQ r (lit "phase") 10 ++
        lit " | " ++ getOrQ r (lit "sponsor") 20 ++ lit " |"
      pyJoin (lit "\n") (header ++ body)
    else lit "<json dump>"

/-! ## neo_mcp/router.py : patterns and classification -/

/-- One TIER1_PATTERNS entry: regex, database, canned SQL (None means the
list-tables special case). -/
structure Tier1Pat where
  re : RE
  db : Str
  sql : Option Str

/-- researchers?  (a trailing optional 's' after a literal). -/
def litS (s : String) : RE := catR [litR s, optG (.ch 's')]

/-- TIER1_PATTERNS (router.py 279-309), in source order. -/
def TIER1_PATTERNS : List Tier1Pat :=
  [⟨catR [litR "how many ", .grp 1 (altsR [litS "researcher", litS "scientist"])],
    lit "researchers", some (lit "SELECT COUNT(*) as count FROM researchers")⟩,
   ⟨litS "how many patent",
    lit "patents", some (lit "SELECT COUNT(*) as count FROM patents")⟩,
   ⟨litS "how many grant",
    lit "grants", some (lit "SELECT COUNT(*) as count FROM grants")⟩,
   ⟨catR [litR "how many ", .grp 1 (altsR [litR "companies", litR "portfolio"])],
    lit "portfolio", some (lit "SELECT COUNT(*) as count FROM companies")⟩,
   ⟨catR [litR "how many ", .grp 1 (altsR [litS "bill", litS "policie"])],
    lit "policies", some (lit "SELECT COUNT(*) as count FROM bills")⟩,
   ⟨catR [litR "total ", optG (.grp 1 (litR "grant ")), litR "funding"],
    lit "grants",
    some (lit "SELECT SUM(total_cost) as total_funding FROM grants WHERE total_cost > 0")⟩,
   ⟨litS "how many hidden gem",
    lit "researchers",
    some (lit "SELECT COUNT(*) as count FROM researchers WHERE slope > 3 AND h_index BETWEEN 20 AND 60")⟩,
   ⟨catR [litR "how many ", optG (.grp 1 (litR "clinical ")), litS "trial"],
    lit "market_data", some (lit "SELECT COUNT(*) as count FROM clinical_trials")⟩,
   ⟨litS "how many recruiting trial",
    lit "market_data",
    some (lit "SELECT COUNT(*) as count FROM clinical_trials WHERE status = 'RECRUITING'")⟩,
   ⟨catR [litR "how many phase", optG (.ch ' '), litR "3 trial", optG (.ch 's')],
    lit "market_data",
    some (lit "SELECT COUNT(*) as count FROM clinical_trials WHERE phase LIKE '%PHASE3%'")⟩,
   ⟨litS "how many completed trial",
    lit "market_data",
    some (lit "SELECT COUNT(*) as count FROM clinical_trials WHERE status = 'COMPLETED'")⟩,
   ⟨catR [litS "trial", litR " by status"],
    lit "market_data",
    some (lit "SELECT status, COUNT(*) as count FROM clinical_trials GROUP BY status ORDER BY count DESC")⟩,
   ⟨catR [litS "trial", litR " by phase"],
    lit "market_data",
    some (lit "SELECT phase, COUNT(*) as count FROM clinical_trials GROUP BY phase ORDER BY count DESC")⟩,
   ⟨litS "top sponsor",
    lit "market_data",
    some (lit "SELECT sponsor, COUNT(*) as count FROM clinical_trials GROUP BY sponsor ORDER BY count DESC LIMIT 20")⟩,
   ⟨catR [litR "what tables", dotStar, .grp 1 (altsR [litS "researcher", litR "talent"])],
    lit "researchers", none⟩,
   ⟨catR [litR "what tables", dotStar, .grp 1 (litS "patent")],
    lit "patents", none⟩,
   ⟨catR [litR "what tables", dotStar, .grp 1 (litS "grant")],
    lit "grants", none⟩,
   ⟨catR [litR "what tables", dotStar, .grp 1 (litR "portfolio")],
    lit "portfolio", none⟩,
   ⟨catR [litR "what tables", dotStar, .grp 1 (altsR [litS "policie", litS "bill"])],
    lit "policies", none⟩,
   ⟨catR [litR "what tables", dotStar, .grp 1 (altsR [litS "trial", litR "market", litR "clinical"])],
    lit "market_data", none⟩]

/-- One TIER2_PATTERNS entry: regex, database, SQL template applied to the
match's captures. -/
structure Tier2Pat where
  re : RE
  db : Str
  gen : Caps → Str

/-- m.group(i) interpolated into an f-string (group guaranteed present). -/
def capD (cps : Caps) (i : Nat) : Str := (capStr cps i).getD []

/-- TIER2_PATTERNS (router.py 313-456), in source order.  Group numbers
follow Python's numbering of the capturing groups in each pattern. -/
def TIER2_PATTERNS : List Tier2Pat :=
  [ -- r"(rising stars?|hidden gems?|fast[- ]?growing).*(?:in|for|about) (?P<field>[a-zA-Z]+)"
   ⟨catR [.grp 1 (altsR [litS "rising star", litS "hidden gem",
            catR [litR "fast", optG (.cls false [('-', '-'), (' ', ' ')]), litR "growing"]]),
          dotStar, altsR [litR "in", litR "for", litR "about"], .ch ' ',
          .grp 2 (plusG alphaC)],
    lit "researchers",
    fun cps =>
      let field := capD cps 2
      lit "\n            SELECT id, name, h_index, slope, primary_category, affiliations\n            FROM researchers\n            WHERE slope > 3 AND h_index BETWEEN 20 AND 60\n              AND (topics LIKE '%" ++
      field ++ lit "%' OR primary_category LIKE '%" ++ field ++
      lit "%')\n            ORDER BY slope DESC LIMIT 10\n        "⟩,
   -- r"top (?P<n>\d+)? ?researchers?.*(?:in|for|about) (?P<field>[a-zA-Z]+)"
   ⟨catR [litR "top ", optG (.grp 1 (plusG digitC)), optG (.ch ' '),
          litS "researcher", dotStar,
          altsR [litR "in", litR "for", litR "about"], .ch ' ',
          .grp 2 (plusG alphaC)],
    lit "researchers",
    fun cps =>
      let field := capD cps 2
      let n := (capStr cps 1).getD (lit "10")
      lit "\n            SELECT id, name, h_index, slope, primary_category, affiliations\n            FROM researchers\n            WHERE topics LIKE '%" ++
      field ++ lit "%' OR primary_category LIKE '%" ++ field ++
      lit "%'\n            ORDER BY h_index DESC LIMIT " ++ n ++ lit "\n        "⟩,
   -- r"patents?.*(for |from |by )?(?P<company>\w+)"
   ⟨catR [litS "patent", dotStar,
          optG (.grp 1 (altsR [litR "for ", litR "from ", litR "by "])),
          .grp 2 (plusG wordC)],
    lit "patents",
    fun cps =>
      let company := capD cps 2
      lit "\n            SELECT id, title, patent_number, filing_date, assignee\n            FROM patents\n            WHERE assignee LIKE '%" ++
      company ++ lit "%' OR title LIKE '%" ++ company ++
      lit "%'\n            ORDER BY filing_date DESC LIMIT 10\n        "⟩,
   -- r"grants?.*(in |for |about )?(?P<field>\w+)"
   ⟨catR [litS "grant", dotStar,
          optG (.grp 1 (altsR [litR "in ", litR "for ", litR "about "])),
          .grp 2 (plusG wordC)],
    lit "grants",
    fun cps =>
      let field := capD cps 2
      lit "\n            SELECT id, title, total_cost, institute, fiscal_year\n            FROM grants\n            WHERE title LIKE '%" ++
      field ++ lit "%' OR abstract LIKE '%" ++ field ++
      lit "%'\n            ORDER BY total_cost DESC LIMIT 10\n        "⟩,
   -- r"(what is|tell me about|info on) (?P<company>\w+)"
   ⟨catR [.grp 1 (altsR [litR "what is", litR "tell me about", litR "info on"]),
          .ch ' ', .grp 2 (plusG wordC)],
    lit "portfolio",
    fun cps =>
      let company := capD cps 2
      lit "\n            SELECT id, name, modality, competitive_advantage, indications\n            FROM companies\n            WHERE name LIKE '%" ++
      company ++ lit "%'\n            LIMIT 1\n        "⟩,
   -- r"(?:clinical )?trials? (?:for|treating|in) (?P<condition>[a-zA-Z\s]+?)(?:\?|$|,| and)"
   ⟨catR [optG (litR "clinical "), litS "trial", .ch ' ',
          altsR [litR "for", litR "treating", litR "in"], .ch ' ',
          .grp 1 (plusL alphaSpC),
          altsR [.ch '?', .eos, .ch ',', litR " and"]],
    lit "market_data",
    fun cps =>
      let c := stripStr (capD cps 1)
      lit "\n            SELECT id, nct_id, title, status, phase, sponsor, start_date\n            FROM clinical_trials\n            WHERE (title LIKE '%" ++
      c ++ lit "%'\n                   OR conditions LIKE '%" ++ c ++
      lit "%')\n            ORDER BY start_date DESC LIMIT 15\n        "⟩,
   -- r"(?P<sponsor>\w+(?:\s+\w+)?)'?s? (?:clinical )?trials?"
   ⟨catR [.grp 1 (catR [plusG wordC, optG (catR [plusG spaceC, plusG wordC])]),
          optG (.ch '\''), optG (.ch 's'), .ch ' ',
          optG (litR "clinical "), litS "trial"],
    lit "market_data",
    fun cps =>
      let s := stripStr (capD cps 1)
      lit "\n            SELECT id, nct_id, title, status, phase, conditions, start_date\n            FROM clinical_trials\n            WHERE sponsor LIKE '%" ++
      s ++ lit "%'\n            ORDER BY start_date DESC LIMIT 15\n        "⟩,
   -- r"recruiting (?:clinical )?trials? (?:for|in|treating) (?P<field>[a-zA-Z\s]+)"
   ⟨catR [litR "recruiting ", optG (litR "clinical "), litS "trial", .ch ' ',
          altsR [litR "for", litR "in", litR "treating"], .ch ' ',
          .grp 1 (plusG alphaSpC)],
    lit "market_data",
    fun cps =>
      let f := stripStr (capD cps 1)
      lit "\n            SELECT id, nct_id, title, phase, sponsor, enrollment, start_date\n            FROM clinical_trials\n            WHERE status = 'RECRUITING'\n              AND (title LIKE '%" ++
      f ++ lit "%'\n                   OR conditions LIKE '%" ++ f ++
      lit "%')\n            ORDER BY enrollment DESC LIMIT 15\n        "⟩,
   -- r"phase ?(?P<phase>\d) (?:clinical )?trials? (?:for|in|treating) (?P<condition>[a-zA-Z\s]+)"
   ⟨catR [litR "phase", optG (.ch ' '), .grp 1 digitC, .ch ' ',
          optG (litR "clinical "), litS "trial", .ch ' ',
          altsR [litR "for", litR "in", litR "treating"], .ch ' ',
          .grp 2 (plusG alphaSpC)],
    lit "market_data",
    fun cps =>
      let ph := capD cps 1
      let c := stripStr (capD cps 2)
      lit "\n            SELECT id, nct_id, title, status, sponsor, enrollment, start_date\n            FROM clinical_trials\n            WHERE phase LIKE '%PHASE" ++
      ph ++ lit "%'\n              AND (title LIKE '%" ++ c ++
      lit "%'\n                   OR conditions LIKE '%" ++ c ++
      lit "%')\n            ORDER BY start_date DESC LIMIT 15\n        "⟩,
   -- r"top (?P<n>\d+)? ?sponsors? (?:by|with) (?:most )?trials?"
   ⟨catR [litR "top ", optG (.grp 1 (plusG digitC)), optG (.ch ' '),
          litS "sponsor", .ch ' ', altsR [litR "by", litR "with"], .ch ' ',
          optG (litR "most "), litS "trial"],
    lit "market_data",
    fun cps =>
      let n := (capStr cps 1).getD (lit "10")
      lit "\n            SELECT sponsor, COUNT(*) as trial_count,\n                   SUM(CASE WHEN status = 'RECRUITING' THEN 1 ELSE 0 END) as recruiting\n            FROM clinical_trials\n            GROUP BY sponsor\n            ORDER BY trial_count DESC\n            LIMIT " ++
      n ++ lit "\n        "⟩,
   -- r"(?:clinical )?trials? (?:started|posted|from|in) (?P<year>20\d{2})"
   ⟨catR [optG (litR "clinical "), litS "trial", .ch ' ',
          altsR [litR "started", litR "posted", litR "from", litR "in"], .ch ' ',
          .grp 1 (catR [litR "20", digitC, digitC])],
    lit "market_data",
    fun cps =>
      let y := capD cps 1
      lit "\n            SELECT id, nct_id, title, status, phase, sponsor\n            FROM clinical_trials\n            WHERE start_date LIKE '" ++
      y ++ lit "%'\n            ORDER BY start_date DESC LIMIT 20\n        "⟩]

/-- One CACHED_AGGREGATIONS entry together with the regex classify_question
matches for it (router.py 143-169 and 511-559; only three of the five
catalog keys have a matching branch in the classifier's loop). -/
structure AggCheck where
  key : Str
  re : RE
  db : Str
  query : Str
  desc : Str

/-- The cached-aggregation checks, in the dict / loop order of the source. -/
def AGG_CHECKS : List AggCheck :=
  [⟨lit "trials_by_status", catR [litS "trial", litR " by status"],
    lit "market_data",
    lit "SELECT status, COUNT(*) as count FROM clinical_trials GROUP BY status ORDER BY count DESC",
    lit "Clinical trials count by status"⟩,
   ⟨lit "trials_by_phase", catR [litS "trial", litR " by phase"],
    lit "market_data",
    lit "SELECT phase, COUNT(*) as count FROM clinical_trials GROUP BY phase ORDER BY count DESC",
    lit "Clinical trials count by phase"⟩,
   ⟨lit "trials_by_sponsor", litS "top sponsor",
    lit "market_data",
    lit "SELECT sponsor, COUNT(*) as count FROM clinical_trials GROUP BY sponsor ORDER BY count DESC LIMIT 20",
    lit "Top 20 sponsors by trial count"⟩]

/-- One CROSS_DB_PATTERNS entry (router.py 463-491). -/
structure CrossPat where
  re : RE
  queries : List (Str × Str)

/-- CROSS_DB_PATTERNS, in source order. -/
def CROSS_DB_PATTERNS : List CrossPat :=
  [⟨catR [litS "researcher", .ch ' ', altsR [litR "with", litR "who have"],
          litR " patent", optG (.ch 's')],
    [(lit "researchers",
      lit "SELECT id, name, h_index, affiliations FROM researchers ORDER BY h_index DESC LIMIT 50"),
     (lit "patents",
      lit "SELECT assignee, COUNT(*) as patent_count FROM patents GROUP BY assignee")]⟩,
   ⟨catR [optG (litR "clinical "), litS "trial", .ch ' ',
          altsR [litR "by", litR "from", litR "for"], .ch ' ',
          optG (litR "our "), litR "portfolio ", optG (litR "companies")],
    [(lit "portfolio", lit "SELECT id, name FROM companies"),
     (lit "market_data",
      lit "SELECT sponsor, COUNT(*) as trial_count, SUM(CASE WHEN status='RECRUITING' THEN 1 ELSE 0 END) as recruiting FROM clinical_trials GROUP BY sponsor")]⟩,
   ⟨catR [litS "grant", .ch ' ',
          altsR [litR "related to", litR "for", litR "in"], .ch ' ',
          altsR [litR "active", litR "recruiting"], .ch ' ',
          optG (litR "clinical "), litS "trial"],
    [(lit "market_data",
      lit "SELECT DISTINCT conditions FROM clinical_trials WHERE status = 'RECRUITING' LIMIT 100"),
     (lit "grants",
      lit "SELECT id, title, total_cost, institute FROM grants ORDER BY total_cost DESC LIMIT 100")]⟩]

/-! ## neo_mcp/router.py : classify_question and route_question -/

/-- The environment of the router: md5, the HTTP oracle for execute_query
(keyed by db, raw query, attempt index) and the outcome of list_tables. -/
structure RouterEnv where
  h : Str → Str
  att : Str → Str → Nat → HttpOut
  tablesO : Str → Except Str (List Str)

/-- An AGGREGATION_CACHE value: the stored response and its timestamp. -/
structure AggEntry where
  answer : Str
  data : List Row
  timestamp : ℚ

/-- Mutable state touched by one classify_question call: the db-layer query
cache, the router's aggregation cache, and the transcript of outbound
/api/sql POSTs made along the way. -/
structure RState where
  qcache : QCache
  agg : List (Str × AggEntry)
  calls : List SqlCall

/-- get_cached_aggregation (router.py 172-178). -/
def getCachedAggregation (agg : List (Str × AggEntry)) (now : ℚ) (key : Str) :
    Option AggEntry :=
  match agg.find? (fun p => p.fst == key) with
  | some p => if now - p.snd.timestamp < 300 then some p.snd else none
  | none => none

/-- set_cached_aggregation (router.py 181-186): dict assignment. -/
def setCachedAggregation (agg : List (Str × AggEntry)) (key : Str)
    (e : AggEntry) : List (Str × AggEntry) :=
  if agg.any (fun p => p.fst == key) then
    agg.map (fun p => if p.fst == key then (key, e) else p)
  else agg ++ [(key, e)]

/-- The "data" component of a Tier 1 result. -/
inductive Tier1Data where
  | row (r : Row)
  | tables (names : List Str)
  | rows (rs : List Row)
deriving DecidableEq, Repr

/-- The value of classify_question: tier plus its payload. -/
inductive ClassifyRes where
  | tier1 (answer : Str) (data : Tier1Data)
  | tier2 (answer : Str) (rows : List Row) (query : Str) (entities : List Entity)
  | tier3 (hint : Option (Str × List Str × List Str × Option (List (Str × Str))))
deriving Repr

/-- The tier number of a classification. -/
def ClassifyRes.tier : ClassifyRes → Nat
  | .tier1 _ _ => 1
  | .tier2 _ _ _ _ => 2
  | .tier3 _ => 3

/-- execute_query as invoked from the router (default limit and caching). -/
def execQ (env : RouterEnv) (cache : QCache) (now : ℚ) (dbName query : Str) :
    ExecOut :=
  executeQuery env.h (env.att dbName query) cache now dbName query 100 true

/-- Thread an ExecOut's cache and transcript into the router state. -/
def RState.absorb (st : RState) (e : ExecOut) : RState :=
  { st with qcache := e.cache, calls := st.calls ++ e.calls }

/-- The cached-aggregation stage of classify_question (router.py 511-559):
on a regex hit, return the cached response if fresh, else run the canned
aggregation; an exception or empty rows fall through to the next check. -/
def aggStage (env : RouterEnv) (now : ℚ) (ql : Str) :
    RState → List AggCheck → Option ClassifyRes × RState
  | st, [] => (none, st)
  | st, a :: rest =>
    if reSearch a.re ql then
      match getCachedAggregation st.agg now a.key with
      | some e => (some (.tier1 e.answer (.rows e.data)), st)
      | none =>
        let eo := execQ env st.qcache now a.db a.query
        let st' := st.absorb eo
        match eo.result with
        | .ok r =>
          match r.rows with
          | [] => aggStage env now ql st' rest
          | _ =>
            let ans := formatAggregationResponse r.rows a.desc
            let st'' := { st' with
              agg := setCachedAggregation st'.agg a.key ⟨ans, r.rows, now⟩ }
            (some (.tier1 ans (.rows r.rows)), st'')
        | .error _ => aggStage env now ql st' rest
    else aggStage env now ql st rest

/-- The Tier 1 stage of classify_question (router.py 561-596): on a regex
hit, run the canned SQL (or list_tables); an exception demotes to Tier 3;
empty rows fall through to the next pattern. -/
def tier1Stage (env : RouterEnv) (now : ℚ) (ql : Str) :
    RState → List Tier1Pat → Option ClassifyRes × RState
  | st, [] => (none, st)
  | st, p :: rest =>
    if reSearch p.re ql then
      match p.sql with
      | none =>
        match env.tablesO p.db with
        | .ok names =>
          (some (.tier1
            (lit "Tables in " ++ p.db ++ lit " database: " ++
              pyJoin (lit ", ") names)
            (.tables names)), st)
        | .error _ => (some (.tier3 none), st)
      | some q =>
        let eo := execQ env st.qcache now p.db q
        let st' := st.absorb eo
        match eo.result with
        | .error _ => (some (.tier3 none), st')
        | .ok r =>
          match r.rows with
          | [] => tier1Stage env now ql st' rest
          | row :: _ =>
            match row with
            | [] => (some (.tier3 none), st')
            | (k, v) :: _ =>
              let fm :=
                if containsL k (lit "funding") || containsL k (lit "cost") then
                  match v with
                  | .int n =>
                    some (if n == 0 then lit "$0" else lit "$" ++ commaInt n)
                  | .null => some (lit "$0")
                  | .bool b => some (if b then lit "$1" else lit "$0")
                  | .str s => if s.isEmpty then some (lit "$0") else none
                else
                  match v with
                  | .int n => some (commaInt n)
                  | .bool b => some (commaInt (if b then (1 : Int) else 0))
                  | w => some (valueStr w)
              match fm with
              | none => (some (.tier3 none), st')
              | some ans => (some (.tier1 ans (.row row)), st')
    else tier1Stage env now ql st rest

/-- The Tier 2 stage of classify_question (router.py 598-616). -/
def tier2Stage (env : RouterEnv) (now : ℚ) (ql : Str) :
    RState → List Tier2Pat → Option ClassifyRes × RState
  | st, [] => (none, st)
  | st, p :: rest =>
    match searchCaps p.re ql with
    | none => tier2Stage env now ql st rest
    | some cps =>
      let q := p.gen cps
      let eo := execQ env st.qcache now p.db q
      let st' := st.absorb eo
      match eo.result with
      | .error _ => (some (.tier3 none), st')
      | .ok r =>
        match r.rows with
        | [] => tier2Stage env now ql st' rest
        | _ =>
          let ents := extractEntitiesFromRows p.db r.rows
          (some (.tier2 (formatTier2Response r.rows p.db) r.rows (stripStr q)
            ents), st')

/-- classify_question (router.py 494-637). -/
def classifyQuestion (env : RouterEnv) (st : RState) (now : ℚ)
    (question : Str) : ClassifyRes × RState :=
  let ql := stripStr (lowerStr question)
  let intents := detectIntent question
  let dbs := detectDatabases question
  match aggStage env now ql st AGG_CHECKS with
  | (some res, st1) => (res, st1)
  | (none, st1) =>
    match tier1Stage env now ql st1 TIER1_PATTERNS with
    | (some res, st2) => (res, st2)
    | (none, st2) =>
      match tier2Stage env now ql st2 TIER2_PATTERNS with
      | (some res, st3) => (res, st3)
      | (none, st3) =>
        let cross :=
          if intents.contains (lit "cross_db") || dbs.length > 1 then
            CROSS_DB_PATTERNS.find? (fun cp => reSearch cp.re ql)
          else none
        match cross with
        | some cp =>
          (.tier3 (some (lit "cross_db", dbs, intents, some cp.queries)), st3)
        | none =>
          if !dbs.isEmpty || intents != [lit "general"] then
            (.tier3 (some (lit "complex", dbs, intents, none)), st3)
          else (.tier3 none, st3)

/-- The dict returned by route_question (router.py 733-777). -/
structure RouteResp where
  tier : Nat
  tier_name : Str
  answer : Option Str
  data : Option Tier1Data
  query : Option Str
  entities : List Entity
  needs_agent : Bool
  routing_hints : Option (Str × List Str × List Str × Option (List (Str × Str)))

/-- route_question (router.py 733-777). -/
def routeQuestion (env : RouterEnv) (st : RState) (now : ℚ)
    (question : Str) : RouteResp × RState :=
  match classifyQuestion env st now question with
  | (.tier1 ans dat, st') =>
    ({ tier := 1, tier_name := lit "instant", answer := some ans,
       data := some dat, query := none, entities := [],
       needs_agent := false, routing_hints := none }, st')
  | (.tier2 ans rows q ents, st') =>
    ({ tier := 2, tier_name := lit "fast", answer := some ans,
       data := some (.rows rows), query := some q, entities := ents,
       needs_agent := false, routing_hints := none }, st')
  | (.tier3 hint, st') =>
    ({ tier := 3, tier_name := lit "agent", answer := none, data := none,
       query := none, entities := [], needs_agent := true,
       routing_hints := hint }, st')

/-! ## rag/semantic_cache.py : the semantic response cache

Embeddings are real vectors; the embedding model is a parameter (a function
from question to vector), as is the md5 digest.  The SQLite table is
modelled as a list of entries kept in descending cached_at order (writes
prepend; time is monotone), so that the ORDER BY cached_at DESC LIMIT 100
read is a take 100. -/

/-- SIMILARITY_THRESHOLD (semantic_cache.py line 27, default 0.80). -/
noncomputable def SIMILARITY_THRESHOLD : ℝ := 0.80

/-- CACHE_TTL of the semantic cache (semantic_cache.py line 30, 3600 s). -/
def SEM_CACHE_TTL : ℚ := 3600

/-- MAX_CACHE_ENTRIES (semantic_cache.py line 33). -/
def MAX_CACHE_ENTRIES : Nat := 500

/-- One row of the cache table. -/
structure CEntry where
  id : Str
  question : Str
  emb : List ℝ
  answer : Str
  tool_calls : List Str
  insights : List Str
  cached_at : ℚ

/-- The cache table, newest first. -/
abbrev CStore := List CEntry

/-- np.dot of two vectors. -/
def dotL (a b : List ℝ) : ℝ := (List.zipWith (· * ·) a b).sum

/-- np.linalg.norm of a vector. -/
noncomputable def normL (a : List ℝ) : ℝ := Real.sqrt (dotL a a)

/-- _cosine_similarity (semantic_cache.py 73-75). -/
noncomputable def cosineSim (a b : List ℝ) : ℝ :=
  dotL a b / (normL a * normL b)

/-- Python round(x, 3). -/
noncomputable def round3 (x : ℝ) : ℝ := ((round (x * 1000) : ℤ) : ℝ) / 1000

/-- _question_id (semantic_cache.py 68-70): md5 (parameter h) of the
stripped lower-cased question. -/
def questionId (h : Str → Str) (q : Str) : Str := h (lowerStr (stripStr q))

/-- _cleanup_old_entries (semantic_cache.py 172-183): delete the oldest
MAX_CACHE_ENTRIES // 2 rows by cached_at ascending. -/
def cleanupOldEntries (s : CStore) : CStore :=
  s.take (s.length - MAX_CACHE_ENTRIES / 2)

/-- The successful body of cache_response (semantic_cache.py 141-166):
cleanup when the table holds MAX_CACHE_ENTRIES or more, then the
INSERT OR REPLACE of the new entry (same primary key replaced; the fresh
entry is the most recent, hence first in the DESC-ordered model). -/
def cacheBody (h : Str → Str) (enc : Str → List ℝ) (now : ℚ) (s : CStore)
    (q answer : Str) (tcs ins : List Str) : CStore :=
  (⟨questionId h q, q, enc q, answer.take 10000, tcs.take 20, ins.take 10,
      now⟩ : CEntry) ::
    (if s.length ≥ MAX_CACHE_ENTRIES then cleanupOldEntries s else s).filter
      (fun e' => e'.id ≠ questionId h q)

/-- cache_response (semantic_cache.py 133-169).  enc is the embedding model;
fail models an exception of the body (embedding or store failure), which the
function suppresses, leaving the store unchanged. -/
def cacheResponse (h : Str → Str) (enc : Str → List ℝ) (now : ℚ)
    (s : CStore) (q answer : Str) (tcs ins : List Str)
    (fail : Option Str) : CStore :=
  match fail with
  | some _ => s
  | none => cacheBody h enc now s q answer tcs ins

/-- A cache hit as returned by get_cached_response. -/
structure CacheHit where
  answer : Str
  tool_calls : List Str
  insights : List Str
  similarity : ℝ
  original_question : Str

/-- One step of the best-match fold of get_cached_response (semantic_cache.py
104-113): strictly greater similarity updates the running best. -/
noncomputable def bestStep (qe : List ℝ) (acc : Option CEntry × ℝ)
    (e : CEntry) : Option CEntry × ℝ :=
  if acc.2 < cosineSim qe e.emb then (some e, cosineSim qe e.emb) else acc

/-- The best-match fold of get_cached_response (semantic_cache.py 104-113). -/
noncomputable def bestFold (qe : List ℝ) (rows : List CEntry) :
    Option CEntry × ℝ :=
  rows.foldl (bestStep qe) (none, 0)

/-- get_cached_response (semantic_cache.py 78-130) on a healthy cache (the
except arm that turns any lookup failure into a miss is not modelled here;
it returns None like a miss). -/
noncomputable def getCachedResponse (enc : Str → List ℝ) (now : ℚ)
    (s : CStore) (q : Str) : Option CacheHit :=
  let qe := enc q
  let cutoff := now - SEM_CACHE_TTL
  let rows := (s.filter (fun e => cutoff < e.cached_at)).take 100
  match rows with
  | [] => none
  | _ =>
    let best := bestFold qe rows
    if best.2 < SIMILARITY_THRESHOLD then none
    else
      match best.1 with
      | none => none
      | some m =>
        some
          { answer := m.answer
            tool_calls := m.tool_calls
            insights := m.insights
            similarity := round3 best.2
            original_question := m.question }

/-! ## neo_mcp/agent.py : entity extraction, tool dispatch, agent loop

The LLM is an oracle giving the response of each turn; each tool call's
underlying result is an oracle indexed by the number of previous tool calls
in the run.  execute_tool's observable effects — the JSON string returned to
the LLM, the entities appended, the insights appended — are embedded; the
remote calls inside the individual tools are behind the oracle. -/

/-- ENTITY_URLS of agent.py (lines 162-168; no market_data entry). -/
def AGENT_ENTITY_URLS : List (Str × Str) :=
  [(lit "researchers", lit "https://kdttalentscout.up.railway.app/researcher"),
   (lit "patents", lit "https://patentwarrior.up.railway.app/patent"),
   (lit "grants", lit "https://grants-tracker-production.up.railway.app/grant"),
   (lit "policies", lit "https://policywatch.up.railway.app/bill"),
   (lit "portfolio", lit "https://web-production-a9d068.up.railway.app/company")]

/-- ENTITY_URLS[k] in agent.py. -/
def agentBaseUrl (k : Str) : Str :=
  match AGENT_ENTITY_URLS.find? (fun p => p.fst == k) with
  | some p => p.snd
  | none => []

/-- extract_entities (agent.py 171-242): map the first 10 rows of a tool
result to entities, keyed by the raw-SQL tool name. -/
def extractEntitiesA (toolName : Str) (rows : List Row) : List Entity :=
  (rows.take 10).filterMap fun row =>
    if toolName == lit "query_researchers" then
      if pyTruthy (rowGet row (lit "id")) && pyTruthy (rowGet row (lit "name")) then
        some
          { ty := lit "researcher"
            id := (rowGet row (lit "id")).getD .null
            name := getStrD row (lit "name") []
            url := agentBaseUrl (lit "researchers") ++ lit "/" ++
              valueStr ((rowGet row (lit "id")).getD .null)
            meta := lit "h-index: " ++ getStrD row (lit "h_index") (lit "?") }
      else none
    else if toolName == lit "query_patents" then
      let pid := pyOrOpt (rowGet row (lit "id")) (rowGet row (lit "patent_id"))
      if pyTruthy pid then
        some
          { ty := lit "patent"
            id := pid.getD .null
            name := ellipsise (getStrD row (lit "title") (lit "Untitled Patent")) 60
            url := agentBaseUrl (lit "patents") ++ lit "/" ++ valueStr (pid.getD .null)
            meta := getStrD row (lit "patent_number") [] }
      else none
    else if toolName == lit "query_grants" then
      let gid := pyOrOpt (rowGet row (lit "id")) (rowGet row (lit "grant_id"))
      if pyTruthy gid then
        some
          { ty := lit "grant"
            id := gid.getD .null
            name := ellipsise (getStrD row (lit "title") (lit "Untitled Grant")) 60
            url := agentBaseUrl (lit "grants") ++ lit "/" ++ valueStr (gid.getD .null)
            meta :=
              match rowGet row (lit "total_cost") with
              | some (.int n) => if n != 0 then lit "$" ++ commaInt n else []
              | _ => [] }
      else none
    else if toolName == lit "query_policies" then
      let bid := pyOrOpt (rowGet row (lit "id")) (rowGet row (lit "bill_id"))
      if pyTruthy bid then
        some
          { ty := lit "policy"
            id := bid.getD .null
            name := ellipsise (getStrD row (lit "title") (lit "Untitled Bill")) 60
            url := agentBaseUrl (lit "policies") ++ lit "/" ++ valueStr (bid.getD .null)
            meta := getStrD row (lit "status") [] }
      else none
    else if toolName == lit "query_portfolio" then
      let cid := pyOrOpt (rowGet row (lit "id")) (rowGet row (lit "company_id"))
      if pyTruthy cid then
        some
          { ty := lit "company"
            id := cid.getD .null
            name := getStrD row (lit "name") (lit "Unknown Company")
            url := agentBaseUrl (lit "portfolio") ++ lit "/" ++ valueStr (cid.getD .null)
            meta := getStrD row (lit "modality") [] }
      else none
    else none

/-- The parts of a tool's returned dict that execute_tool inspects:
rows is result["rows"]; patents is get_patent_portfolio's result["patents"];
top_grants is get_funding_summary's result["top_grants"]; the prof* fields
are get_company_profile's result["patents"]["patents"],
result["grants"]["top_grants"], result["researchers"]["top_researchers"];
raw is the json.dumps of the whole result. -/
structure ToolPayload where
  raw : Str := []
  rows : List Row := []
  patents : List Row := []
  top_grants : List Row := []
  profPatents : List Row := []
  profGrants : List Row := []
  profResearchers : List Row := []

/-- Outcome of the underlying implementation of one tool call: it either
raised (execute_tool's except arm turns it into an error JSON) or returned
a result dict. -/
inductive ToolRes where
  | raises (msg : Str)
  | returns (p : ToolPayload)

/-- The entities one execute_tool call appends (agent.py 245-405): which
extraction runs for which tool name, in the source's branch order. -/
def toolEntitiesOf (name : Str) (p : ToolPayload) : List Entity :=
  if name == lit "get_researchers" || name == lit "get_researcher_profile" ||
      name == lit "get_rising_stars" || name == lit "get_researchers_by_topic" then
    extractEntitiesA (lit "query_researchers") p.rows
  else if name == lit "get_patents" || name == lit "search_patents_by_topic" then
    extractEntitiesA (lit "query_patents") p.rows
  else if name == lit "get_patent_portfolio" then
    extractEntitiesA (lit "query_patents") p.patents
  else if name == lit "get_grants" || name == lit "get_grants_by_topic" then
    extractEntitiesA (lit "query_grants") p.rows
  else if name == lit "get_funding_summary" then
    extractEntitiesA (lit "query_grants") p.top_grants
  else if name == lit "get_company_profile" then
    extractEntitiesA (lit "query_patents") p.profPatents ++
    extractEntitiesA (lit "query_grants") p.profGrants ++
    extractEntitiesA (lit "query_researchers") p.profResearchers
  else if name == lit "query_researchers" || name == lit "query_patents" ||
      name == lit "query_grants" || name == lit "query_policies" ||
      name == lit "query_portfolio" then
    extractEntitiesA name p.rows
  else []

/-- deduplicate_entities (agent.py 408-417): unique (type, id), first
occurrence wins. -/
def dedupGo (seen : List (Str × Value)) : List Entity → List Entity
  | [] => []
  | e :: rest =>
    if (e.ty, e.id) ∈ seen then dedupGo seen rest
    else e :: dedupGo ((e.ty, e.id) :: seen) rest

/-- deduplicate_entities (agent.py 408-417). -/
def deduplicateEntities (es : List Entity) : List Entity := dedupGo [] es

/-- A content block of an LLM response. -/
inductive Block where
  | text (s : Str)
  | toolUse (tid name input : Str)

/-- An LLM response: stop_reason and content blocks. -/
structure LLMResp where
  stop : Str
  content : List Block

/-- One entry of all_tool_calls. -/
structure ToolCallRec where
  tool : Str
  input : Str
  result_preview : Str
deriving DecidableEq

/-- The dict returned by run_agent (the keys the loop exits produce; a key
absent from a given return is modelled by [] / none). -/
structure AgentRun where
  answer : Str
  tool_calls : List ToolCallRec
  insights : List Str
  entities : List Entity
  turns_used : Nat
  warning : Option Str
  error : Option Str

/-- The oracles and flags of one run_agent invocation. -/
structure AgentEnv where
  llm : Nat → Except Str LLMResp
  tools : Nat → ToolRes
  writeO : CStore → Except Str CStore
  skipCache : Bool
  hasHistory : Bool

/-- Modelled from the spec: neo_mcp/semantic_cache.py, the module
run_agent's cache write dispatches to, is not under src/ (src/rag/
semantic_cache.py is the sibling implementation).  Per spec sections 4.5
and 7, the write upserts the entry (embedding, answer, first 20 tool calls,
first 10 insights, entities, timestamp) and a CacheError — an embedding or
store failure — is suppressed, logged and treated as a no-op write.  The
underlying embed-and-store operation is the parameter w; cache_response
returns normally in both cases. -/
def cacheResponseNeo (w : CStore → Except Str CStore) (s : CStore) : CStore :=
  match w s with
  | .ok s' => s'
  | .error _ => s

/-- json.dumps({"error": str(e)}) as returned by execute_tool's except arm. -/
def errJson (msg : Str) : Str :=
  lit "\x7b\"error\": \"" ++ msg ++ lit "\"\x7d"

/-- json.dumps({"status": "insight recorded", "total_insights": n}). -/
def insightJson (n : Nat) : Str :=
  lit "\x7b\"status\": \"insight recorded\", \"total_insights\": " ++ natStr n ++ lit "\x7d"

/-- Process the tool_use blocks of one turn (agent.py 550-578): execute each
tool in order, appending tool-call records, insights and entities. -/
def processBlocks (tools : Nat → ToolRes) (callIdx : Nat)
    (tcs : List ToolCallRec) (ins : List Str) (ents : List Entity) :
    List Block → Nat × List ToolCallRec × List Str × List Entity
  | [] => (callIdx, tcs, ins, ents)
  | .text _ :: rest => processBlocks tools callIdx tcs ins ents rest
  | .toolUse _ name input :: rest =>
    let res := tools callIdx
    let step :
        Str × List Str × List Entity :=
      match res with
      | .raises msg => (errJson msg, ins, ents)
      | .returns p =>
        if name == lit "append_insight" then
          (insightJson (ins.length + 1), ins ++ [input], ents)
        else (p.raw, ins, ents ++ toolEntitiesOf name p)
    let rec' : ToolCallRec := ⟨name, input, step.1.take 500⟩
    processBlocks tools (callIdx + 1) (tcs ++ [rec']) step.2.1 step.2.2 rest

/-- Concatenation of the text blocks of a response. -/
def concatTexts (bs : List Block) : Str :=
  bs.foldl (fun acc b => match b with | .text s => acc ++ s | _ => acc) []

/-- The canned max-turns answer. -/
def maxTurnsMsg : Str :=
  lit "I've reached the maximum number of analysis steps. Here's what I found so far based on my queries."

/-- The agentic loop of run_agent (agent.py 502-605), from the point after
the router / semantic-cache pre-flight.  fuel is max_turns - turns_used. -/
def runLoop (env : AgentEnv) :
    Nat → Nat → Nat → List ToolCallRec → List Str → List Entity → CStore →
    AgentRun × CStore
  | 0, turnsUsed, _, tcs, ins, ents, store =>
    ({ answer := maxTurnsMsg, tool_calls := tcs, insights := ins,
       entities := deduplicateEntities ents, turns_used := turnsUsed,
       warning := some (lit "max_turns_exceeded"), error := none }, store)
  | fuel + 1, turnsUsed, callIdx, tcs, ins, ents, store =>
    let t := turnsUsed + 1
    match env.llm turnsUsed with
    | .error e =>
      ({ answer := lit "API error: " ++ e, tool_calls := tcs, insights := ins,
         entities := [], turns_used := t, warning := none,
         error := some (lit "api_error") }, store)
    | .ok resp =>
      if resp.stop == lit "end_turn" then
        let finalText := concatTexts resp.content
        let uniq := deduplicateEntities ents
        let store' :=
          if !env.skipCache && !env.hasHistory && !finalText.isEmpty then
            cacheResponseNeo env.writeO store
          else store
        ({ answer := finalText, tool_calls := tcs, insights := ins,
           entities := uniq, turns_used := t, warning := none,
           error := none }, store')
      else if resp.stop == lit "tool_use" then
        match processBlocks env.tools callIdx tcs ins ents resp.content with
        | (ci, tcs', ins', ents') => runLoop env fuel t ci tcs' ins' ents' store
      else
        let finalText := concatTexts resp.content
        let ans :=
          if finalText.isEmpty then
            lit "Unexpected stop reason: " ++ resp.stop
          else finalText
        ({ answer := ans, tool_calls := tcs, insights := ins,
           entities := deduplicateEntities ents, turns_used := t,
           warning := none, error := none }, store)

/-- run_agent's agentic loop from a fresh run state. -/
def runAgentLoop (env : AgentEnv) (maxTurns : Nat) (store : CStore) :
    AgentRun × CStore :=
  runLoop env maxTurns 0 0 [] [] [] store

/-- The raw (pre-deduplication) entity list the loop has accumulated at its
exit point; [] on the api_error exit, whose return carries no entities key. -/
def rawLoop (env : AgentEnv) :
    Nat → Nat → Nat → List ToolCallRec → List Str → List Entity → List Entity
  | 0, _, _, _, _, ents => ents
  | fuel + 1, turnsUsed, callIdx, tcs, ins, ents =>
    match env.llm turnsUsed with
    | .error _ => []
    | .ok resp =>
      if resp.stop == lit "end_turn" then ents
      else if resp.stop == lit "tool_use" then
        match processBlocks env.tools callIdx tcs ins ents resp.content with
        | (ci, tcs', ins', ents') => rawLoop env fuel (turnsUsed + 1) ci tcs' ins' ents'
      else ents

/-- The raw entity accumulation of a whole run. -/
def rawAgentLoop (env : AgentEnv) (maxTurns : Nat) : List Entity :=
  rawLoop env maxTurns 0 0 [] [] []

/-! ## Claim C1 : the safety transform of execute_query -/

/-- Helper: the transcript of one execute_query call is empty, one POST with
timeout 90, or that POST followed by a retry with timeout 120 — always
carrying the transformed query. -/
theorem executeQuery_calls_shape (h : Str → Str) (att : Nat → HttpOut)
    (cache : QCache) (now : ℚ) (dbName query : Str) (lim : Nat)
    (useCache : Bool) :
    (executeQuery h att cache now dbName query lim useCache).calls = [] ∨
    (executeQuery h att cache now dbName query lim useCache).calls =
      [⟨dbName, transmittedQuery query lim, 90⟩] ∨
    (executeQuery h att cache now dbName query lim useCache).calls =
      [⟨dbName, transmittedQuery query lim, 90⟩,
       ⟨dbName, transmittedQuery query lim, 120⟩] := by
  unfold executeQuery
  split
  · exact Or.inl rfl
  · dsimp only
    generalize (if useCache then
      getCachedQ cache now (cacheKeyQ h dbName (transmittedQuery query lim))
      else (none, cache)) = look
    rcases look with ⟨_ | r, c2⟩
    · unfold execAfterLook httpAttempts
      cases h0 : att 0
      case timeout => cases h1 : att 1 <;> simp
      all_goals simp
    · exact Or.inl rfl

/-- The HTTP oracle of the C1 counterexample: every attempt succeeds. -/
def c1Att : Nat → HttpOut := fun _ => .success ⟨[], [], 0⟩

/-- C1 counterexample: execute_query transmits the caller's SQL without any
SELECT check — for db_name "patents" and query "DELETE FROM patents" the
transmitted statement is "DELETE FROM patents LIMIT 100", which after
trimming and uppercasing does not begin with SELECT.  This refutes the claim
that for every db_name and every caller-supplied query the transmitted SQL
begins with SELECT. -/
theorem C1_counterexample :
    ((executeQuery id c1Att [] 0 (lit "patents") (lit "DELETE FROM patents")
        100 true).calls.map SqlCall.query
      = [lit "DELETE FROM patents LIMIT 100"]) ∧
    startsWithL (upperStr (stripStr (lit "DELETE FROM patents LIMIT 100")))
      (lit "SELECT") = false := by
  constructor
  · decide
  · decide

/-- C1 amended: every outbound /api/sql POST made by execute_query transmits
the LIMIT transform of the caller's query: when the trimmed upper-cased
query does not contain the substring LIMIT, the transmitted statement is the
query (with trailing semicolons removed) plus an appended LIMIT clause of
value min(limit, 500) ≤ 500; otherwise the query is transmitted unchanged.
No SELECT-prefix condition is enforced. -/
theorem C1_amended (h : Str → Str) (att : Nat → HttpOut) (cache : QCache)
    (now : ℚ) (dbName query : Str) (lim : Nat) (useCache : Bool) :
    (∀ c ∈ (executeQuery h att cache now dbName query lim useCache).calls,
      c.query = transmittedQuery query lim) ∧
    (containsL (upperStr (stripStr query)) (lit "LIMIT") = false →
      transmittedQuery query lim =
        rstripSemi query ++ lit " LIMIT " ++ natStr (min lim 500) ∧
      min lim 500 ≤ 500) ∧
    (containsL (upperStr (stripStr query)) (lit "LIMIT") = true →
      transmittedQuery query lim = query) := by
  refine ⟨?_, ?_, ?_⟩
  · intro c hc
    rcases executeQuery_calls_shape h att cache now dbName query lim useCache
      with hs | hs | hs <;> rw [hs] at hc <;> simp_all
    rcases hc with hc | hc <;> subst hc <;> rfl
  · intro hnc
    refine ⟨?_, Nat.min_le_right _ _⟩
    unfold transmittedQuery
    simp [hnc]
  · intro hc
    unfold transmittedQuery
    simp [hc]

/-- C1 amended witness at a concrete query without a LIMIT clause. -/
theorem C1_amended_witness :
    transmittedQuery (lit "SELECT COUNT(*) as count FROM patents") 100 =
      rstripSemi (lit "SELECT COUNT(*) as count FROM patents") ++
        lit " LIMIT " ++ natStr (min 100 500) ∧
    min 100 500 ≤ 500 := by
  exact (C1_amended id c1Att [] 0 (lit "patents")
    (lit "SELECT COUNT(*) as count FROM patents") 100 true).2.1 (by decide)

/-! ## Claim C6 : retry policy of execute_query -/

/-- C6: execute_query makes at most two HTTP attempts, the first with a
90-second and the retry with a 120-second timeout; a second attempt happens
only when the first timed out (never on an HTTP status error); and when the
first response is a status error whose computed detail is d, the call raises
"Query error: d" without retrying. -/
theorem C6_retry_policy (h : Str → Str) (att : Nat → HttpOut) (cache : QCache)
    (now : ℚ) (dbName query : Str) (lim : Nat) (useCache : Bool) :
    (executeQuery h att cache now dbName query lim useCache).calls.length ≤ 2 ∧
    ((executeQuery h att cache now dbName query lim useCache).calls.map
        SqlCall.timeout = [] ∨
     (executeQuery h att cache now dbName query lim useCache).calls.map
        SqlCall.timeout = [90] ∨
     (executeQuery h att cache now dbName query lim useCache).calls.map
        SqlCall.timeout = [90, 120]) ∧
    ((executeQuery h att cache now dbName query lim useCache).calls.length = 2 →
      att 0 = .timeout) ∧
    (∀ d, att 0 = .statusError d →
      (executeQuery h att cache now dbName query lim useCache).calls ≠ [] →
      (executeQuery h att cache now dbName query lim useCache).result =
          .error (lit "Query error: " ++ d) ∧
        (executeQuery h att cache now dbName query lim useCache).calls.length
          = 1) := by
  unfold executeQuery
  split
  · simp
  · dsimp only
    generalize (if useCache then
      getCachedQ cache now (cacheKeyQ h dbName (transmittedQuery query lim))
      else (none, cache)) = look
    rcases look with ⟨_ | r, c2⟩
    · unfold execAfterLook httpAttempts
      cases h0 : att 0
      case timeout => cases h1 : att 1 <;> simp [h0]
      all_goals simp [h0]
    · simp [execAfterLook]

/-- C6 witness: with a first attempt answering a 4xx whose detail is
"no such table", a concrete execute_query call makes one POST and raises
the detail. -/
def c6Att : Nat → HttpOut := fun _ => .statusError (lit "no such table")

/-- C6 witness at a concrete status-error oracle. -/
theorem C6_retry_policy_witness :
    (executeQuery id c6Att [] 0 (lit "grants") (lit "SELECT 1 FROM x") 100
        true).result = .error (lit "Query error: no such table") ∧
    (executeQuery id c6Att [] 0 (lit "grants") (lit "SELECT 1 FROM x") 100
        true).calls.length = 1 := by
  exact (C6_retry_policy id c6Att [] 0 (lit "grants") (lit "SELECT 1 FROM x")
    100 true).2.2.2 (lit "no such table") rfl (by decide)

/-! ## Claim C4 : cache capacity bounds -/

/-- Helper: an element of a list that the erased predicate rejects survives
List.eraseP. -/
theorem mem_eraseP_of_neg {α} (p : α → Bool) {a : α} :
    ∀ {l : List α}, a ∈ l → p a = false → a ∈ l.eraseP p := by
  intro l h hp
  induction l with
  | nil => cases h
  | cons x xs ih =>
    rcases List.mem_cons.mp h with rfl | hm
    · simp [List.eraseP_cons, hp]
    · rw [List.eraseP_cons]
      cases hpx : p x
      · simpa using Or.inr (ih hm)
      · simpa using hm

/-- Helper: deleting, for each victim key, the entry with that key removes
exactly one entry per victim when the victim keys are distinct and present,
and preserves key distinctness. -/
theorem foldl_eraseP_card (victims : List QCEntry) :
    ∀ c : QCache, (c.map QCEntry.key).Nodup →
    (victims.map QCEntry.key).Nodup →
    (∀ v ∈ victims, ∃ e ∈ c, e.key = v.key) →
    (victims.foldl (fun acc v => acc.eraseP (fun e => e.key == v.key)) c).length
        = c.length - victims.length ∧
    ((victims.foldl (fun acc v => acc.eraseP (fun e => e.key == v.key)) c).map
        QCEntry.key).Nodup := by
  induction victims with
  | nil => intro c hnd _ _; exact ⟨rfl, hnd⟩
  | cons v vs ih =>
    intro c hnd hvd hpres
    simp only [List.foldl_cons]
    obtain ⟨e, he, hek⟩ := hpres v (by simp)
    have hlen : (c.eraseP (fun e' => e'.key == v.key)).length + 1 = c.length := by
      rw [List.length_eraseP_of_mem he (by simp [hek])]
      have : 1 ≤ c.length := List.length_pos.mpr (by rintro rfl; cases he)
      omega
    have hsub : List.Sublist (c.eraseP (fun e' => e'.key == v.key)) c :=
      List.eraseP_sublist c
    have hnd' : ((c.eraseP (fun e' => e'.key == v.key)).map QCEntry.key).Nodup :=
      (hsub.map QCEntry.key).nodup hnd
    have hvknotin : v.key ∉ vs.map QCEntry.key := by
      have := hvd
      simp only [List.map_cons, List.nodup_cons] at this
      exact this.1
    have hpres' : ∀ w ∈ vs,
        ∃ e' ∈ c.eraseP (fun e' => e'.key == v.key), e'.key = w.key := by
      intro w hw
      obtain ⟨e', he', hek'⟩ := hpres w (by simp [hw])
      refine ⟨e', mem_eraseP_of_neg _ he' ?_, hek'⟩
      have hne : w.key ≠ v.key := by
        intro hcontra
        exact hvknotin (hcontra ▸ List.mem_map_of_mem QCEntry.key hw)
      simp [hek', hne]
    obtain ⟨h1, h2⟩ := ih (c.eraseP (fun e' => e'.key == v.key)) hnd'
      (by simpa using hvd.of_cons) hpres'
    refine ⟨?_, h2⟩
    rw [h1]
    simp only [List.length_cons]
    omega

/-- Helper: the dict assignment at the end of _set_cached grows the cache by
at most one entry and preserves key distinctness. -/
theorem insertQC_card (c1 : QCache) (now : ℚ) (key : Str) (r : QueryResult)
    (hnd : (c1.map QCEntry.key).Nodup) :
    (insertQC c1 now key r).length ≤ c1.length + 1 ∧
    ((insertQC c1 now key r).map QCEntry.key).Nodup := by
  unfold insertQC
  by_cases ha : c1.any (fun e => e.key == key)
  · rw [if_pos ha]
    constructor
    · simp
    · have hkeys : (c1.map (fun e => if e.key == key then
          (⟨key, r, now⟩ : QCEntry) else e)).map QCEntry.key
          = c1.map QCEntry.key := by
        rw [List.map_map]
        apply List.map_congr_left
        intro e _
        by_cases hk : e.key == key
        · simp only [Function.comp_apply, if_pos hk]
          exact (eq_of_beq hk).symm
        · simp only [Function.comp_apply, if_neg hk]
      rw [hkeys]; exact hnd
  · rw [if_neg ha]
    constructor
    · simp
    · have hnotin : key ∉ c1.map QCEntry.key := by
        intro hmem
        obtain ⟨e, he, hek⟩ := List.mem_map.mp hmem
        exact ha (List.any_eq_true.mpr ⟨e, he, by simp [hek]⟩)
      simp only [List.map_append, List.map_cons, List.map_nil]
      exact List.Nodup.append hnd (by simp)
        (by simpa [List.disjoint_right] using hnotin)

/-- Helper: one _set_cached call keeps the query cache within 101 entries
and keeps its keys distinct. -/
theorem setCachedQ_card (c : QCache) (now : ℚ) (key : Str) (r : QueryResult)
    (hnd : (c.map QCEntry.key).Nodup) (hlen : c.length ≤ 101) :
    (setCachedQ c now key r).length ≤ 101 ∧
    ((setCachedQ c now key r).map QCEntry.key).Nodup := by
  unfold setCachedQ evictQC
  by_cases hc : c.length > 100
  · rw [if_pos hc]
    have hperm : List.Perm
        (c.insertionSort (fun a b => a.timestamp ≤ b.timestamp)) c :=
      List.perm_insertionSort _ c
    have hsortnd :
        ((c.insertionSort (fun a b => a.timestamp ≤ b.timestamp)).map
          QCEntry.key).Nodup :=
      ((hperm.map QCEntry.key).nodup_iff).mpr hnd
    have hvnd :
        (((c.insertionSort (fun a b => a.timestamp ≤ b.timestamp)).take 50).map
          QCEntry.key).Nodup :=
      ((List.take_sublist _ _).map QCEntry.key).nodup hsortnd
    have hvpres : ∀ v ∈ (c.insertionSort
        (fun a b => a.timestamp ≤ b.timestamp)).take 50,
        ∃ e ∈ c, e.key = v.key := by
      intro v hv
      exact ⟨v, hperm.mem_iff.mp ((List.take_subset _ _) hv), rfl⟩
    have hvlen : ((c.insertionSort
        (fun a b => a.timestamp ≤ b.timestamp)).take 50).length = 50 := by
      rw [List.length_take, List.length_insertionSort]
      omega
    obtain ⟨hflen, hfnd⟩ := foldl_eraseP_card _ c hnd hvnd hvpres
    obtain ⟨hil, hind⟩ := insertQC_card _ now key r hfnd
    exact ⟨by rw [hflen, hvlen] at hil; omega, hind⟩
  · rw [if_neg hc]
    obtain ⟨hil, hind⟩ := insertQC_card c now key r hnd
    exact ⟨by omega, hind⟩

set_option maxRecDepth 4000 in
/-- C4 counterexample: 101 insertions of distinct keys into an empty query
cache leave it holding 101 entries — eviction runs only once the size
already exceeds 100 — refuting the claim that the cache holds at most 100
entries after every insertion. -/
theorem C4_counterexample :
    (((List.range 101).map (fun i => ([Char.ofNat (100 + i)] : Str))).foldl
      (fun c k => setCachedQ c 0 k ⟨[], [], 0⟩) []).length = 101 := by
  decide

/-- C4 amended: after every insertion the SQL client's query cache holds at
most 101 entries (the size-100 bound is exceeded by exactly one before the
oldest-50 eviction triggers), and after every insertion the semantic
response cache holds at most 500 entries. -/
theorem C4_amended :
    (∀ (c : QCache) (now : ℚ) (key : Str) (r : QueryResult),
      (c.map QCEntry.key).Nodup → c.length ≤ 101 →
      (setCachedQ c now key r).length ≤ 101 ∧
      ((setCachedQ c now key r).map QCEntry.key).Nodup) ∧
    (∀ (h : Str → Str) (enc : Str → List ℝ) (now : ℚ) (s : CStore)
      (q a : Str) (tcs ins : List Str) (fail : Option Str),
      s.length ≤ 500 →
      (cacheResponse h enc now s q a tcs ins fail).length ≤ 500) := by
  constructor
  · exact fun c now key r hnd hlen => setCachedQ_card c now key r hnd hlen
  · intro h enc now s q a tcs ins fail hlen
    unfold cacheResponse
    match fail with
    | some _ => exact hlen
    | none =>
      unfold cacheBody
      have hmax : MAX_CACHE_ENTRIES = 500 := rfl
      by_cases hfull : s.length ≥ MAX_CACHE_ENTRIES
      · rw [if_pos hfull]
        have h1 := List.length_filter_le
          (fun e' => decide (e'.id ≠ questionId h q)) (cleanupOldEntries s)
        have h2 : (cleanupOldEntries s).length ≤ 250 := by
          unfold cleanupOldEntries
          simp only [List.length_take, hmax]
          omega
        simp only [List.length_cons]
        omega
      · rw [if_neg hfull]
        rw [hmax] at hfull
        have h1 := List.length_filter_le
          (fun e' => decide (e'.id ≠ questionId h q)) s
        simp only [List.length_cons]
        omega

/-- C4 amended witness at concrete empty caches. -/
theorem C4_amended_witness :
    (setCachedQ [] 0 (lit "k") ⟨[], [], 0⟩).length ≤ 101 ∧
    (cacheResponse id (fun _ => []) 0 [] (lit "q") (lit "a") [] [] none).length
      ≤ 500 := by
  exact ⟨(C4_amended.1 [] 0 (lit "k") ⟨[], [], 0⟩ (by simp) (by simp)).1,
    C4_amended.2 id (fun _ => []) 0 [] (lit "q") (lit "a") [] [] none (by simp)⟩

/-! ## Claim C5 : SQL failure during Tier 1/2 execution demotes to Tier 3 -/

/-- An environment whose every SQL execution and list_tables call fails. -/
def allFail (env : RouterEnv) : Prop :=
  (∀ dbName query n r, env.att dbName query n ≠ .success r) ∧
  (∀ dbName names, env.tablesO dbName ≠ .ok names)

/-- Helper: _get_cached on an empty cache misses. -/
theorem getCachedQ_nil (now : ℚ) (key : Str) :
    getCachedQ [] now key = (none, []) := rfl

/-- Helper: with an all-failing HTTP oracle and an empty query cache,
execute_query raises and caches nothing. -/
theorem execQ_fail (env : RouterEnv) (now : ℚ) (dbName query : Str)
    (hf : ∀ dbName query n r, env.att dbName query n ≠ .success r) :
    (∃ m, (execQ env [] now dbName query).result = .error m) ∧
    (execQ env [] now dbName query).cache = [] := by
  unfold execQ executeQuery
  split
  · exact ⟨⟨_, rfl⟩, rfl⟩
  · simp only [getCachedQ_nil, ite_self]
    unfold execAfterLook httpAttempts
    cases h0 : env.att dbName query 0 with
    | success r => exact absurd h0 (hf _ _ _ _)
    | timeout =>
      cases h1 : env.att dbName query 1 with
      | success r => exact absurd h1 (hf _ _ _ _)
      | timeout => exact ⟨⟨_, rfl⟩, rfl⟩
      | statusError d => exact ⟨⟨_, rfl⟩, rfl⟩
      | otherError m => exact ⟨⟨_, rfl⟩, rfl⟩
    | statusError d => exact ⟨⟨_, rfl⟩, rfl⟩
    | otherError m => exact ⟨⟨_, rfl⟩, rfl⟩

/-- Helper: the aggregation stage passes through under an all-failing
oracle, keeping both caches empty. -/
theorem aggStage_fail (env : RouterEnv) (now : ℚ) (ql : Str)
    (hf : ∀ dbName query n r, env.att dbName query n ≠ .success r) :
    ∀ (checks : List AggCheck) (st : RState), st.qcache = [] → st.agg = [] →
    ∃ st', aggStage env now ql st checks = (none, st') ∧
      st'.qcache = [] ∧ st'.agg = [] := by
  intro checks
  induction checks with
  | nil => exact fun st h1 h2 => ⟨st, rfl, h1, h2⟩
  | cons a rest ih =>
    intro st h1 h2
    unfold aggStage
    by_cases hm : reSearch a.re ql
    · rw [if_pos hm, h2, h1]
      unfold getCachedAggregation
      simp only [List.find?_nil]
      obtain ⟨⟨m, hres⟩, hcache⟩ := execQ_fail env now a.db a.query hf
      rw [hres]
      exact ih (st.absorb (execQ env [] now a.db a.query))
        (by simp [RState.absorb, hcache]) (by simp [RState.absorb, h2])
    · rw [if_neg hm]
      exact ih st h1 h2

/-- Helper: the Tier 1 stage yields Tier 3 (or passes) under an all-failing
environment with an empty query cache. -/
theorem tier1Stage_fail (env : RouterEnv) (now : ℚ) (ql : Str)
    (hfe : allFail env) :
    ∀ (pats : List Tier1Pat) (st : RState), st.qcache = [] →
    (∃ st', tier1Stage env now ql st pats = (none, st') ∧ st'.qcache = []) ∨
    (∃ st', tier1Stage env now ql st pats = (some (.tier3 none), st')) := by
  intro pats
  induction pats with
  | nil => exact fun st h1 => Or.inl ⟨st, rfl, h1⟩
  | cons p rest ih =>
    intro st h1
    unfold tier1Stage
    by_cases hm : reSearch p.re ql
    · rw [if_pos hm, h1]
      rcases hsql : p.sql with _ | q
      · simp only [hsql]
        rcases ht : env.tablesO p.db with m | names
        · simp only [ht]
          exact Or.inr ⟨st, rfl⟩
        · exact absurd ht (hfe.2 _ _)
      · simp only [hsql]
        obtain ⟨⟨m, hres⟩, hcache⟩ := execQ_fail env now p.db q hfe.1
        simp only [hres]
        exact Or.inr ⟨_, rfl⟩
    · rw [if_neg hm]
      exact ih st h1

/-- Helper: the Tier 2 stage yields Tier 3 (or passes) under an all-failing
environment with an empty query cache. -/
theorem tier2Stage_fail (env : RouterEnv) (now : ℚ) (ql : Str)
    (hf : ∀ dbName query n r, env.att dbName query n ≠ .success r) :
    ∀ (pats : List Tier2Pat) (st : RState), st.qcache = [] →
    (∃ st', tier2Stage env now ql st pats = (none, st') ∧ st'.qcache = []) ∨
    (∃ st', tier2Stage env now ql st pats = (some (.tier3 none), st')) := by
  intro pats
  induction pats with
  | nil => exact fun st h1 => Or.inl ⟨st, rfl, h1⟩
  | cons p rest ih =>
    intro st h1
    unfold tier2Stage
    rcases hs : searchCaps p.re ql with _ | cps
    · simp only [hs]
      exact ih st h1
    · simp only [hs]
      rw [h1]
      obtain ⟨⟨m, hres⟩, hcache⟩ := execQ_fail env now p.db (p.gen cps) hf
      simp only [hres]
      exact Or.inr ⟨_, rfl⟩

/-- C5: when every SQL execution attempted for a Tier 1 pattern (canned SQL
or list_tables) or a Tier 2 template raises — modelled by an environment
whose every HTTP attempt and list_tables call fails — classify_question
returns a Tier 3 result for every question string, starting from empty
caches; no error escapes to the router's caller. -/
theorem C5_tier_demotion (env : RouterEnv) (now : ℚ) (question : Str)
    (hfe : allFail env) (st : RState) (hq : st.qcache = [])
    (ha : st.agg = []) :
    (classifyQuestion env st now question).1.tier = 3 := by
  unfold classifyQuestion
  dsimp only
  obtain ⟨st1, hagg, hq1, ha1⟩ := aggStage_fail env now
    (stripStr (lowerStr question)) hfe.1 AGG_CHECKS st hq ha
  rw [hagg]
  dsimp only
  rcases tier1Stage_fail env now (stripStr (lowerStr question)) hfe
      TIER1_PATTERNS st1 hq1 with ⟨st2, ht1, hq2⟩ | ⟨st2, ht1⟩
  · rw [ht1]
    dsimp only
    rcases tier2Stage_fail env now (stripStr (lowerStr question)) hfe.1
        TIER2_PATTERNS st2 hq2 with ⟨st3, ht2, _⟩ | ⟨st3, ht2⟩
    · rw [ht2]
      dsimp only
      split
      · rfl
      · split <;> rfl
    · rw [ht2]; rfl
  · rw [ht1]; rfl

/-! ## Claim C3 : a semantic-cache write failure is a suppressed no-op -/

/-- Helper: the AgentRun the loop returns does not depend on the cache store
it threads nor on the cache writer's outcome. -/
theorem runLoop_run_indep (llm : Nat → Except Str LLMResp)
    (tools : Nat → ToolRes) (sc hh : Bool) :
    ∀ (fuel turnsUsed callIdx : Nat) (tcs : List ToolCallRec)
      (ins : List Str) (ents : List Entity) (s1 s2 : CStore)
      (w1 w2 : CStore → Except Str CStore),
    (runLoop ⟨llm, tools, w1, sc, hh⟩ fuel turnsUsed callIdx tcs ins ents
      s1).1
      = (runLoop ⟨llm, tools, w2, sc, hh⟩ fuel turnsUsed callIdx tcs ins ents
        s2).1 := by
  intro fuel
  induction fuel with
  | zero => intro _ _ _ _ _ _ _ _ _; rfl
  | succ fuel ih =>
    intro turnsUsed callIdx tcs ins ents s1 s2 w1 w2
    unfold runLoop
    dsimp only
    cases hl : llm turnsUsed with
    | error e => simp only [hl]
    | ok resp =>
      simp only [hl]
      by_cases h1 : (resp.stop == lit "end_turn") = true
      · rw [if_pos h1, if_pos h1]
      · rw [if_neg h1, if_neg h1]
        by_cases h2 : (resp.stop == lit "tool_use") = true
        · rw [if_pos h2, if_pos h2]
          rcases hpb : processBlocks tools callIdx tcs ins ents resp.content
            with ⟨ci, tcs', ins', ents'⟩
          simp only [hpb]
          exact ih (turnsUsed + 1) ci tcs' ins' ents' s1 s2 w1 w2
        · rw [if_neg h2, if_neg h2]

/-- C3: the AgentRun run_agent returns after its loop — answer, tool_calls,
insights, entities, turns — is identical whatever the semantic-cache write
does (in particular when the embedding or store operation fails), and the
spec-modelled cache_response turns an underlying write failure into a no-op
on the store instead of raising. -/
theorem C3_cache_failure_noop (llm : Nat → Except Str LLMResp)
    (tools : Nat → ToolRes) (sc hh : Bool) (maxTurns : Nat)
    (s1 s2 : CStore) (w1 w2 : CStore → Except Str CStore) :
    (runAgentLoop ⟨llm, tools, w1, sc, hh⟩ maxTurns s1).1
      = (runAgentLoop ⟨llm, tools, w2, sc, hh⟩ maxTurns s2).1 ∧
    (∀ (w : CStore → Except Str CStore) (s : CStore) (m : Str),
      w s = .error m → cacheResponseNeo w s = s) := by
  constructor
  · exact runLoop_run_indep llm tools sc hh maxTurns 0 0 [] [] [] s1 s2 w1 w2
  · intro w s m hw
    unfold cacheResponseNeo
    rw [hw]

/-- C3 witness: a concrete failing write leaves a concrete store unchanged. -/
theorem C3_cache_failure_noop_witness :
    cacheResponseNeo (fun _ => .error (lit "disk full")) [] = [] := by
  exact (C3_cache_failure_noop (fun _ => .error []) (fun _ => .raises [])
    false false 0 [] [] (fun s => .ok s) (fun s => .ok s)).2
    (fun _ => .error (lit "disk full")) [] (lit "disk full") rfl

/-! ## Claim C7 : entity deduplication of the agent run -/

/-- Helper: deduplication returns a sublist of its input. -/
theorem dedupGo_sublist : ∀ (seen : List (Str × Value)) (l : List Entity),
    List.Sublist (dedupGo seen l) l := by
  intro seen l
  induction l generalizing seen with
  | nil => exact List.Sublist.refl []
  | cons e rest ih =>
    unfold dedupGo
    by_cases hm : (e.ty, e.id) ∈ seen
    · rw [if_pos hm]
      exact (ih seen).cons e
    · rw [if_neg hm]
      exact (ih ((e.ty, e.id) :: seen)).cons₂ e

/-- Helper: deduplication yields entries with pairwise distinct (type, id)
keys, none of them in the already-seen set. -/
theorem dedupGo_props : ∀ (seen : List (Str × Value)) (l : List Entity),
    (∀ e ∈ dedupGo seen l, (e.ty, e.id) ∉ seen) ∧
    List.Pairwise (fun a b => (a.ty, a.id) ≠ (b.ty, b.id)) (dedupGo seen l) := by
  intro seen l
  induction l generalizing seen with
  | nil => simp [dedupGo]
  | cons e rest ih =>
    unfold dedupGo
    by_cases hm : (e.ty, e.id) ∈ seen
    · rw [if_pos hm]
      exact ih seen
    · rw [if_neg hm]
      obtain ⟨ih1, ih2⟩ := ih ((e.ty, e.id) :: seen)
      constructor
      · intro e' he'
        rcases List.mem_cons.mp he' with rfl | hm'
        · exact hm
        · exact fun hc => ih1 e' hm' (List.mem_cons_of_mem _ hc)
      · refine List.Pairwise.cons ?_ ih2
        intro b hb hc
        exact ih1 b hb (hc ▸ List.mem_cons_self _ _)

/-- Helper: every survivor of deduplication is the first occurrence of its
(type, id) key in the input list. -/
theorem dedupGo_find : ∀ (seen : List (Str × Value)) (l : List Entity)
    (e : Entity), e ∈ dedupGo seen l →
    l.find? (fun x => decide ((x.ty, x.id) = (e.ty, e.id))) = some e ∧
    (e.ty, e.id) ∉ seen := by
  intro seen l
  induction l generalizing seen with
  | nil => intro e he; cases he
  | cons x rest ih =>
    intro e he
    unfold dedupGo at he
    by_cases hm : (x.ty, x.id) ∈ seen
    · rw [if_pos hm] at he
      obtain ⟨hf, hns⟩ := ih seen e he
      have hne : ¬ (x.ty, x.id) = (e.ty, e.id) := fun hc => hns (hc ▸ hm)
      refine ⟨?_, hns⟩
      rw [List.find?_cons_of_neg _ (by simpa using hne)]
      exact hf
    · rw [if_neg hm] at he
      rcases List.mem_cons.mp he with rfl | hm'
      · refine ⟨?_, hm⟩
        rw [List.find?_cons_of_pos _ (by simp)]
      · obtain ⟨hf, hns⟩ := ih ((x.ty, x.id) :: seen) e hm'
        have hne : ¬ (x.ty, x.id) = (e.ty, e.id) :=
          fun hc => hns (hc ▸ List.mem_cons_self _ _)
        refine ⟨?_, fun hc => hns (List.mem_cons_of_mem _ hc)⟩
        rw [List.find?_cons_of_neg _ (by simpa using hne)]
        exact hf

/-- Helper: the entity list of the returned run is the deduplication of the
raw accumulated entity list at the loop's exit point. -/
theorem runLoop_entities (env : AgentEnv) :
    ∀ (fuel turnsUsed callIdx : Nat) (tcs : List ToolCallRec)
      (ins : List Str) (ents : List Entity) (store : CStore),
    (runLoop env fuel turnsUsed callIdx tcs ins ents store).1.entities
      = deduplicateEntities (rawLoop env fuel turnsUsed callIdx tcs ins ents) := by
  intro fuel
  induction fuel with
  | zero => intro _ _ _ _ _ _; rfl
  | succ fuel ih =>
    intro turnsUsed callIdx tcs ins ents store
    unfold runLoop rawLoop
    dsimp only
    cases hl : env.llm turnsUsed with
    | error e => simp only [hl]; rfl
    | ok resp =>
      simp only [hl]
      by_cases h1 : (resp.stop == lit "end_turn") = true
      · rw [if_pos h1, if_pos h1]
      · rw [if_neg h1, if_neg h1]
        by_cases h2 : (resp.stop == lit "tool_use") = true
        · rw [if_pos h2, if_pos h2]
          rcases hpb : processBlocks env.tools callIdx tcs ins ents
            resp.content with ⟨ci, tcs', ins', ents'⟩
          simp only [hpb]
          exact ih (turnsUsed + 1) ci tcs' ins' ents' store
        · rw [if_neg h2, if_neg h2]

/-- C7: the entities list of the run returned by the agent loop — at
end_turn, at an unexpected stop reason, and at max-turns exhaustion — is the
deduplication of the raw accumulated list: at most one entry per (type, id)
pair, each the first-seen occurrence of its pair, in first-seen order (a
sublist of the raw accumulation). -/
theorem C7_entity_dedup (env : AgentEnv) (maxTurns : Nat) (store : CStore) :
    (runAgentLoop env maxTurns store).1.entities
      = deduplicateEntities (rawAgentLoop env maxTurns) ∧
    List.Pairwise (fun a b => (a.ty, a.id) ≠ (b.ty, b.id))
      ((runAgentLoop env maxTurns store).1.entities) ∧
    List.Sublist ((runAgentLoop env maxTurns store).1.entities)
      (rawAgentLoop env maxTurns) ∧
    (∀ e ∈ (runAgentLoop env maxTurns store).1.entities,
      (rawAgentLoop env maxTurns).find?
        (fun x => decide ((x.ty, x.id) = (e.ty, e.id))) = some e) := by
  have h := runLoop_entities env maxTurns 0 0 [] [] [] store
  refine ⟨h, ?_, ?_, ?_⟩
  · rw [show (runAgentLoop env maxTurns store).1.entities = _ from h]
    exact (dedupGo_props [] _).2
  · rw [show (runAgentLoop env maxTurns store).1.entities = _ from h]
    exact dedupGo_sublist [] _
  · rw [show (runAgentLoop env maxTurns store).1.entities = _ from h]
    intro e he
    exact (dedupGo_find [] _ e he).1

/-- The agent environment of the C7 witness: one query_researchers call
returning one researcher row, then end_turn. -/
def c7Env : AgentEnv :=
  ⟨fun t =>
    if t == 0 then
      .ok ⟨lit "tool_use",
        [.toolUse (lit "i") (lit "query_researchers") (lit "{}")]⟩
    else .ok ⟨lit "end_turn", [.text (lit "hi")]⟩,
   fun _ => .returns
     { raw := lit "{}"
       rows := [[(lit "id", .int 5), (lit "name", .str (lit "x"))]] },
   fun s => .ok s, false, false⟩

/-- The single entity of the C7 witness run. -/
def c7Ent : Entity :=
  ⟨lit "researcher", .int 5, lit "x",
   lit "https://kdttalentscout.up.railway.app/researcher/5", lit "h-index: ?"⟩

set_option maxRecDepth 4000 in
/-- C7 witness at a concrete one-entity run: the survivor is the first
occurrence of its key in the raw accumulation. -/
theorem C7_entity_dedup_witness :
    (rawAgentLoop c7Env 25).find?
      (fun x => decide ((x.ty, x.id) = (c7Ent.ty, c7Ent.id))) = some c7Ent := by
  exact (C7_entity_dedup c7Env 25 []).2.2.2 c7Ent (by decide)

/-! ## Claim C10 : per-tool-call entity caps -/

/-- Helper: one extract_entities call yields at most ten entities. -/
theorem extractEntitiesA_le (name : Str) (rows : List Row) :
    (extractEntitiesA name rows).length ≤ 10 := by
  calc (extractEntitiesA name rows).length
      ≤ (rows.take 10).length := List.length_filterMap_le _ _
    _ ≤ 10 := by simp [List.length_take]

/-- The get_company_profile payload of the C10 counterexample: ten valid
rows in each of the three nested row lists, with distinct ids per list. -/
def c10Payload : ToolPayload :=
  { raw := lit "{}"
    profPatents := (List.range 10).map (fun i => [(lit "id", .int (i + 1))])
    profGrants := (List.range 10).map (fun i => [(lit "id", .int (i + 1))])
    profResearchers := (List.range 10).map
      (fun i => [(lit "id", .int (i + 1)), (lit "name", .str (lit "r"))]) }

/-- The agent environment of the C10 counterexample: one turn calling
get_company_profile, then end_turn. -/
def c10Env : AgentEnv :=
  ⟨fun t =>
    if t == 0 then
      .ok ⟨lit "tool_use",
        [.toolUse (lit "t1") (lit "get_company_profile") (lit "{}")]⟩
    else .ok ⟨lit "end_turn", [.text (lit "done")]⟩,
   fun _ => .returns c10Payload, fun s => .ok s, false, false⟩

set_option maxRecDepth 8000 in
/-- C10 counterexample: a single get_company_profile tool execution
contributes 30 entities to the run (ten patents, ten grants, ten
researchers), refuting the claim that each single tool execution contributes
at most 10 entities. -/
theorem C10_counterexample :
    ((runAgentLoop c10Env 25 []).1.entities).length = 30 := by
  decide

/-- C10 amended: entity extraction looks at only the first 10 rows of each
row list, so one tool execution contributes at most 10 entities — except
get_company_profile, which runs three extractions (patents, grants,
researchers) and contributes at most 30. -/
theorem C10_amended (name : Str) (p : ToolPayload) :
    (toolEntitiesOf name p).length ≤ 30 ∧
    (name ≠ lit "get_company_profile" →
      (toolEntitiesOf name p).length ≤ 10) := by
  unfold toolEntitiesOf
  split_ifs with h1 h2 h3 h4 h5 h6 h7
  · exact ⟨le_trans (extractEntitiesA_le _ _) (by norm_num),
      fun _ => extractEntitiesA_le _ _⟩
  · exact ⟨le_trans (extractEntitiesA_le _ _) (by norm_num),
      fun _ => extractEntitiesA_le _ _⟩
  · exact ⟨le_trans (extractEntitiesA_le _ _) (by norm_num),
      fun _ => extractEntitiesA_le _ _⟩
  · exact ⟨le_trans (extractEntitiesA_le _ _) (by norm_num),
      fun _ => extractEntitiesA_le _ _⟩
  · exact ⟨le_trans (extractEntitiesA_le _ _) (by norm_num),
      fun _ => extractEntitiesA_le _ _⟩
  · constructor
    · simp only [List.length_append]
      have g1 := extractEntitiesA_le (lit "query_patents") p.profPatents
      have g2 := extractEntitiesA_le (lit "query_grants") p.profGrants
      have g3 := extractEntitiesA_le (lit "query_researchers") p.profResearchers
      omega
    · intro hne
      exact absurd (eq_of_beq h6) hne
  · exact ⟨le_trans (extractEntitiesA_le _ _) (by norm_num),
      fun _ => extractEntitiesA_le _ _⟩
  · exact ⟨by norm_num, fun _ => by norm_num⟩

/-- C10 amended witness at a non-profile tool name. -/
theorem C10_amended_witness :
    (toolEntitiesOf (lit "get_patents") { raw := [] }).length ≤ 10 := by
  exact (C10_amended (lit "get_patents") { raw := [] }).2 (by decide)

/-! ## Claim C8 : write-then-read round-trip of the semantic cache -/

/-- Helper: the dot product against an empty vector is zero. -/
theorem dotL_nil_right (a : List ℝ) : dotL a [] = 0 := by
  cases a <;> simp [dotL]

/-- Helper: the dot product on cons. -/
theorem dotL_cons (x y : ℝ) (as bs : List ℝ) :
    dotL (x :: as) (y :: bs) = x * y + dotL as bs := by
  simp [dotL]

/-- Helper: a vector's dot product with itself is nonnegative. -/
theorem dotL_self_nonneg (a : List ℝ) : 0 ≤ dotL a a := by
  induction a with
  | nil => simp [dotL]
  | cons x as ih =>
    rw [dotL_cons]
    nlinarith [mul_self_nonneg x, ih]

/-- Helper: the induction step of the Cauchy-Schwarz inequality. -/
theorem cs_step (x y A B D : ℝ) (hA : 0 ≤ A) (hB : 0 ≤ B)
    (hIH : D ^ 2 ≤ A * B) : (x * y + D) ^ 2 ≤ (x * x + A) * (y * y + B) := by
  have h2 : 0 ≤ x ^ 2 * y ^ 2 * (A * B - D ^ 2) :=
    mul_nonneg (mul_nonneg (sq_nonneg x) (sq_nonneg y)) (sub_nonneg.mpr hIH)
  have hP : 0 ≤ x ^ 2 * B + A * y ^ 2 :=
    add_nonneg (mul_nonneg (sq_nonneg x) hB) (mul_nonneg hA (sq_nonneg y))
  have hPQ : (2 * x * y * D) ^ 2 ≤ (x ^ 2 * B + A * y ^ 2) ^ 2 := by
    nlinarith [sq_nonneg (x ^ 2 * B - A * y ^ 2), h2]
  have hQle : 2 * x * y * D ≤ x ^ 2 * B + A * y ^ 2 := by
    nlinarith [hPQ, hP, sq_nonneg (2 * x * y * D - (x ^ 2 * B + A * y ^ 2)),
      sq_nonneg (2 * x * y * D + (x ^ 2 * B + A * y ^ 2))]
  nlinarith [hQle, hIH]

/-- Helper: the Cauchy-Schwarz inequality for list dot products. -/
theorem dotL_sq_le (a : List ℝ) : ∀ b : List ℝ,
    (dotL a b) ^ 2 ≤ dotL a a * dotL b b := by
  induction a with
  | nil => intro b; simp [dotL]
  | cons x as ih =>
    intro b
    cases b with
    | nil =>
      rw [dotL_nil_right]
      simp only [dotL, List.zipWith_nil_right, List.sum_nil]
      nlinarith [dotL_self_nonneg (x :: as)]
    | cons y bs =>
      rw [dotL_cons, dotL_cons, dotL_cons]
      exact cs_step x y (dotL as as) (dotL bs bs) (dotL as bs)
        (dotL_self_nonneg as) (dotL_self_nonneg bs) (ih bs)

/-- Helper: cosine similarity never exceeds 1 (division by a zero norm
yields 0 under real division). -/
theorem cosineSim_le_one (a b : List ℝ) : cosineSim a b ≤ 1 := by
  unfold cosineSim normL
  by_cases hn : Real.sqrt (dotL a a) * Real.sqrt (dotL b b) = 0
  · rw [hn, div_zero]; norm_num
  · have hge : 0 ≤ Real.sqrt (dotL a a) * Real.sqrt (dotL b b) :=
      mul_nonneg (Real.sqrt_nonneg _) (Real.sqrt_nonneg _)
    have hpos : 0 < Real.sqrt (dotL a a) * Real.sqrt (dotL b b) :=
      lt_of_le_of_ne hge (Ne.symm hn)
    rw [div_le_one hpos]
    have h1 : dotL a b ≤ |dotL a b| := le_abs_self _
    have h2 : |dotL a b| = Real.sqrt ((dotL a b) ^ 2) :=
      (Real.sqrt_sq_eq_abs _).symm
    have h3 : Real.sqrt ((dotL a b) ^ 2) ≤ Real.sqrt (dotL a a * dotL b b) :=
      Real.sqrt_le_sqrt (dotL_sq_le a b)
    have h4 : Real.sqrt (dotL a a * dotL b b) =
        Real.sqrt (dotL a a) * Real.sqrt (dotL b b) :=
      Real.sqrt_mul (dotL_self_nonneg a) _
    linarith [h1, h2 ▸ h1, h4 ▸ h3, h2.symm ▸ h3]

/-- Helper: cosine similarity of a nonzero vector with itself is exactly 1. -/
theorem cosineSim_self (a : List ℝ) (h : 0 < dotL a a) :
    cosineSim a a = 1 := by
  unfold cosineSim normL
  rw [Real.mul_self_sqrt (le_of_lt h)]
  exact div_self (ne_of_gt h)

/-- Helper: Python round(1.0, 3) is 1.0. -/
theorem round3_one : round3 1 = 1 := by
  unfold round3
  norm_num

/-- Helper: the best-match fold does not move off an accumulator whose
similarity is already 1 when every remaining similarity is at most 1. -/
theorem bestFold_stay (qe : List ℝ) :
    ∀ (rows : List CEntry) (m : Option CEntry),
    rows.foldl (bestStep qe) (m, 1) = (m, 1) := by
  intro rows
  induction rows with
  | nil => intro m; rfl
  | cons e es ih =>
    intro m
    simp only [List.foldl_cons]
    unfold bestStep
    rw [if_neg (not_lt.mpr (cosineSim_le_one qe e.emb))]
    exact ih m

/-- Helper: the best-match fold over rows whose head has similarity 1 ends
at that head with similarity 1. -/
theorem bestFold_head_one (qe : List ℝ) (e0 : CEntry) (rest : List CEntry)
    (h0 : cosineSim qe e0.emb = 1) :
    bestFold qe (e0 :: rest) = (some e0, 1) := by
  unfold bestFold
  simp only [List.foldl_cons]
  unfold bestStep
  rw [h0, if_pos (by norm_num : (0 : ℝ) < 1)]
  exact bestFold_stay qe rest (some e0)

/-- C8: writing a question to the semantic response cache and immediately
reading the cache with the same question returns a hit whose similarity is
exactly 1, for every question whose embedding is a nonzero vector, every
prior cache state and every write time. -/
theorem C8_roundtrip (h : Str → Str) (enc : Str → List ℝ) (now : ℚ)
    (s : CStore) (q answer : Str) (tcs ins : List Str)
    (hnz : 0 < dotL (enc q) (enc q)) :
    ∃ hit, getCachedResponse enc now
        (cacheResponse h enc now s q answer tcs ins none) q = some hit ∧
      hit.similarity = 1 := by
  have hself : cosineSim (enc q) (enc q) = 1 := cosineSim_self _ hnz
  unfold cacheResponse cacheBody
  unfold getCachedResponse
  dsimp only
  rw [List.filter_cons_of_pos (by
    simp only [SEM_CACHE_TTL]
    have hlt : now - 3600 < now := by linarith
    simp [hlt])]
  rw [show (100 : Nat) = 99 + 1 from rfl, List.take_succ_cons]
  rw [bestFold_head_one (enc q) _ _ hself]
  dsimp only
  rw [if_neg (by
    simp only [SIMILARITY_THRESHOLD]
    norm_num)]
  exact ⟨_, rfl, round3_one⟩

/-- C8 witness at a concrete one-dimensional embedding. -/
theorem C8_roundtrip_witness :
    ∃ hit, getCachedResponse (fun _ => [1]) 0
        (cacheResponse id (fun _ => [1]) 0 [] (lit "q") (lit "a") [] [] none)
        (lit "q") = some hit ∧ hit.similarity = 1 := by
  exact C8_roundtrip id (fun _ => [1]) 0 [] (lit "q") (lit "a") [] []
    (by norm_num [dotL])

/-! ## Claim C2 : the "How many patents?" Tier 1 scenario -/

/-- The patents source's reply in the C2 scenario: one row {count: n}. -/
def c2Result (n : Int) : QueryResult :=
  ⟨[lit "count"], [[(lit "count", .int n)]], 1⟩

/-- A router environment whose SQL endpoint always answers the count row. -/
def c2Env (n : Int) : RouterEnv :=
  ⟨id, fun _ _ _ => .success (c2Result n), fun _ => .error []⟩

/-- C2 counterexample: for the input "How many patents?" the SQL transmitted
to the patents source is "SELECT COUNT(*) as count FROM patents LIMIT 100" —
execute_query appends LIMIT min(100, 500), not 500 — refuting the claimed
transmitted statement "SELECT COUNT(*) as count FROM patents LIMIT 500". -/
theorem C2_counterexample :
    (routeQuestion (c2Env 2400) ⟨[], [], []⟩ 0
        (lit "How many patents?")).2.calls.map SqlCall.query
      = [lit "SELECT COUNT(*) as count FROM patents LIMIT 100"] ∧
    lit "SELECT COUNT(*) as count FROM patents LIMIT 100"
      ≠ lit "SELECT COUNT(*) as count FROM patents LIMIT 500" := by
  exact ⟨by decide, by decide⟩

/-- C2 amended: for the input "How many patents?" with empty caches and a
patents source answering {count: n}, the router classifies the question as
Tier 1, the SQL transmitted to the patents source is exactly
"SELECT COUNT(*) as count FROM patents LIMIT 100", the answer is the count
formatted as a comma-grouped integer string, and the entities list is
empty. -/
theorem C2_amended (n : Int) :
    (routeQuestion (c2Env n) ⟨[], [], []⟩ 0
        (lit "How many patents?")).1.tier = 1 ∧
    (routeQuestion (c2Env n) ⟨[], [], []⟩ 0
        (lit "How many patents?")).1.answer = some (commaInt n) ∧
    (routeQuestion (c2Env n) ⟨[], [], []⟩ 0
        (lit "How many patents?")).1.entities = [] ∧
    (routeQuestion (c2Env n) ⟨[], [], []⟩ 0
        (lit "How many patents?")).2.calls.map SqlCall.query
      = [lit "SELECT COUNT(*) as count FROM patents LIMIT 100"] := by
  exact ⟨rfl, rfl, rfl, rfl⟩

/-! ## Claim C9 : the "rising stars in immunology" Tier 2 scenario -/

/-- A router environment whose SQL endpoint answers a fixed nonempty row
list for every query. -/
def c9Env (row : Row) (rs : List Row) : RouterEnv :=
  ⟨id, fun _ _ _ => .success ⟨[], row :: rs, (row :: rs).length⟩,
   fun _ => .error []⟩

/-- The SQL generated by the rising-stars template for field immunology. -/
def c9Sql : Str :=
  lit "\n            SELECT id, name, h_index, slope, primary_category, affiliations\n            FROM researchers\n            WHERE slope > 3 AND h_index BETWEEN 20 AND 60\n              AND (topics LIKE '%immunology%' OR primary_category LIKE '%immunology%')\n            ORDER BY slope DESC LIMIT 10\n        "

/-- Helper: a list starts with itself before any suffix. -/
theorem startsWithL_append (a b : Str) : startsWithL (a ++ b) a = true := by
  induction a with
  | nil => cases b <;> rfl
  | cons c rest ih => simp [startsWithL, ih]

/-- Helper: the researchers Tier 2 table always opens with its four-column
Markdown header. -/
theorem formatTier2_researchers_header (row : Row) (rs : List Row) :
    startsWithL (formatTier2Response (row :: rs) (lit "researchers"))
      (lit "| Name | H-Index | Slope | Category |") = true := by
  unfold formatTier2Response
  dsimp only
  rw [if_pos (show (lit "researchers" == lit "researchers") = true by decide)]
  have hjoin : ∀ (sep l1 l2 : Str) (body : List Str),
      pyJoin sep (l1 :: l2 :: body) = l1 ++ sep ++ pyJoin sep (l2 :: body) :=
    fun _ _ _ _ => rfl
  simp only [List.cons_append, List.nil_append]
  rw [hjoin, List.append_assoc]
  exact startsWithL_append _ _

/-- Helper: researcher entity extraction yields at most ten entries, each a
researcher whose URL is the researchers base, "/researcher/", then its id. -/
theorem extractEntities_researchers_props (rows : List Row) :
    (extractEntitiesFromRows (lit "researchers") rows).length ≤ 10 ∧
    ∀ e ∈ extractEntitiesFromRows (lit "researchers") rows,
      e.ty = lit "researcher" ∧
      e.url = lit "https://kdttalentscout.up.railway.app/researcher/" ++
        valueStr e.id := by
  constructor
  · calc (extractEntitiesFromRows (lit "researchers") rows).length
        ≤ (rows.take 10).length := List.length_filterMap_le _ _
      _ ≤ 10 := by simp [List.length_take]
  · intro e he
    unfold extractEntitiesFromRows at he
    obtain ⟨row, _, hf⟩ := List.mem_filterMap.mp he
    dsimp only at hf
    rw [if_pos (show (lit "researchers" == lit "researchers") = true
      by decide)] at hf
    by_cases hid : (pyTruthy (rowGet row (lit "id")) &&
        pyTruthy (rowGet row (lit "name"))) = true
    · rw [if_pos hid] at hf
      obtain rfl := Option.some.inj hf
      exact ⟨rfl, rfl⟩
    · rw [if_neg hid] at hf
      cases hf

set_option maxRecDepth 20000 in
/-- C9: for the input "rising stars in immunology" with empty caches and a
researchers source answering a nonempty row list, the router classifies the
question as Tier 2; the generated SQL (whitespace-normalised) contains the
WHERE clause slope > 3 AND h_index BETWEEN 20 AND 60 AND (topics LIKE
'%immunology%' OR primary_category LIKE '%immunology%'), ordered by slope
descending with LIMIT 10, and its select list includes id; the answer opens
with a 4-column Markdown table header; and the entities are at most 10
researcher entries whose URLs are the researchers base /researcher/<id>. -/
theorem C9_rising_stars (row : Row) (rs : List Row) :
    (routeQuestion (c9Env row rs) ⟨[], [], []⟩ 0
        (lit "rising stars in immunology")).1.tier = 2 ∧
    (routeQuestion (c9Env row rs) ⟨[], [], []⟩ 0
        (lit "rising stars in immunology")).1.query = some (stripStr c9Sql) ∧
    containsL (normWs (stripStr c9Sql))
      (lit "WHERE slope > 3 AND h_index BETWEEN 20 AND 60 AND (topics LIKE '%immunology%' OR primary_category LIKE '%immunology%') ORDER BY slope DESC LIMIT 10")
      = true ∧
    containsL (normWs (stripStr c9Sql)) (lit "SELECT id,") = true ∧
    (∃ ans, (routeQuestion (c9Env row rs) ⟨[], [], []⟩ 0
        (lit "rising stars in immunology")).1.answer = some ans ∧
      startsWithL ans (lit "| Name | H-Index | Slope | Category |") = true) ∧
    (routeQuestion (c9Env row rs) ⟨[], [], []⟩ 0
        (lit "rising stars in immunology")).1.entities.length ≤ 10 ∧
    ∀ e ∈ (routeQuestion (c9Env row rs) ⟨[], [], []⟩ 0
        (lit "rising stars in immunology")).1.entities,
      e.ty = lit "researcher" ∧
      e.url = lit "https://kdttalentscout.up.railway.app/researcher/" ++
        valueStr e.id := by
  have hent : (routeQuestion (c9Env row rs) ⟨[], [], []⟩ 0
      (lit "rising stars in immunology")).1.entities
      = extractEntitiesFromRows (lit "researchers") (row :: rs) := rfl
  have hans : (routeQuestion (c9Env row rs) ⟨[], [], []⟩ 0
      (lit "rising stars in immunology")).1.answer
      = some (formatTier2Response (row :: rs) (lit "researchers")) := rfl
  refine ⟨rfl, rfl, by decide, by decide, ?_, ?_, ?_⟩
  · exact ⟨formatTier2Response (row :: rs) (lit "researchers"), hans,
      formatTier2_researchers_header row rs⟩
  · rw [hent]
    exact (extractEntities_researchers_props (row :: rs)).1
  · rw [hent]
    exact (extractEntities_researchers_props (row :: rs)).2

/-- The single researcher row of the C9 witness. -/
def c9Row : Row :=
  [(lit "id", .int 7), (lit "name", .str (lit "Ana Bell")),
   (lit "h_index", .int 42), (lit "slope", .int 5),
   (lit "primary_category", .str (lit "immunology"))]

/-- The entity that row yields. -/
def c9Ent : Entity :=
  ⟨lit "researcher", .int 7, lit "Ana Bell",
   lit "https://kdttalentscout.up.railway.app/researcher/7",
   lit "h-index: 42"⟩

set_option maxRecDepth 20000 in
/-- C9 witness at a concrete researcher row: the produced entity is a
researcher entry whose URL is the researchers base /researcher/<id>. -/
theorem C9_rising_stars_witness :
    c9Ent.ty = lit "researcher" ∧
    c9Ent.url = lit "https://kdttalentscout.up.railway.app/researcher/" ++
      valueStr c9Ent.id := by
  exact (C9_rising_stars c9Row []).2.2.2.2.2.2 c9Ent (by decide)

/-- The all-failing environment of the C5 witness. -/
def c5Env : RouterEnv :=
  ⟨id, fun _ _ _ => .timeout, fun _ => .error (lit "down")⟩

/-- C5 witness: a concrete question whose Tier 1 pattern matches is demoted
to Tier 3 under the all-failing environment. -/
theorem C5_tier_demotion_witness :
    (classifyQuestion c5Env ⟨[], [], []⟩ 0 (lit "How many patents?")).1.tier
      = 3 := by
  exact C5_tier_demotion c5Env 0 (lit "How many patents?")
    ⟨fun _ _ _ _ hcon => by simp [c5Env] at hcon,
     fun _ _ hcon => by simp [c5Env] at hcon⟩
    ⟨[], [], []⟩ rfl rfl

end S2P
